import Mathlib

/-!
Verification development for the terminal AI assistant repository.

The Python sources under `Ai/` are shallowly embedded below.  Text is
modelled as `List Char`; Python `str` operations (`lower`, `strip`,
`split`, `replace`, substring `in`, slicing) are modelled by executable
functions on `List Char` (ASCII-faithful: Python's `str.lower` is
Unicode-aware, the model lowers `A`-`Z` only, which covers every string
constant appearing in the sources).  Python `dict`s are modelled as
insertion-ordered association lists; `dict` insertion updates an existing
key in place and appends a new key.  Python `float` arithmetic on
confidence scores and timestamps is modelled over `ℚ`; rationals built in
executable positions use `mkRat` (definitionally equal to division on `ℚ`,
see `pyMin`/`mkRat` bridging lemmas).  Randomness (`random.random()`
threshold draws and `random.choice` picks) and the external collaborators
(the Ollama chat backend, the web-search client, the wall clock) are
supplied by an explicit environment record; a collaborator raising an
exception is modelled as `Option.none`.
-/

/-! ### Python string primitives -/

/-- Whitespace for Python `str.split` / `str.strip` (ASCII part). -/
def isPySpace (c : Char) : Bool :=
  c.toNat = 32 || c.toNat = 9 || c.toNat = 10 || c.toNat = 13 || c.toNat = 11 || c.toNat = 12

/-- ASCII lowering of one character, modelling Python `str.lower`. -/
def pyToLower (c : Char) : Char :=
  if 65 ≤ c.toNat ∧ c.toNat ≤ 90 then Char.ofNat (c.toNat + 32) else c

/-- Python `s.lower()`. -/
def pyLower (l : List Char) : List Char := l.map pyToLower

/-- Python `s.lower()` on `String` (used for personality names). -/
def pyLowerStr (s : String) : String := String.mk (pyLower s.data)

/-- Python substring containment `needle in hay`. -/
def isSubstr (needle : List Char) : List Char → Bool
  | [] => needle.isEmpty
  | c :: t => needle.isPrefixOf (c :: t) || isSubstr needle t

/-- Python `s.strip()`: drop leading and trailing whitespace. -/
def pyStrip (l : List Char) : List Char :=
  ((l.dropWhile isPySpace).reverse.dropWhile isPySpace).reverse

/-- Accumulator worker for `pyWords`; `acc` holds the current word reversed. -/
def pyWordsAux : List Char → List Char → List (List Char)
  | acc, [] => if acc.isEmpty then [] else [acc.reverse]
  | acc, c :: cs =>
    if isPySpace c then
      if acc.isEmpty then pyWordsAux [] cs else acc.reverse :: pyWordsAux [] cs
    else pyWordsAux (c :: acc) cs

/-- Python `s.split()` (split on whitespace runs, no empty words). -/
def pyWords (l : List Char) : List (List Char) := pyWordsAux [] l

/-- Python `len(s.split())`. -/
def wordCount (l : List Char) : Nat := (pyWords l).length

/-- Python `max(xs, key=f)` for a `Nat`-valued key: the first maximal
element wins ties; `none` on the empty list (Python raises `ValueError`). -/
def pyMaxBy {α : Type} (f : α → Nat) : List α → Option α
  | [] => none
  | x :: xs =>
    match pyMaxBy f xs with
    | none => some x
    | some m => if f x < f m then some m else some x

/-- Python `d[k]` / `k in d` on an insertion-ordered association list. -/
def dictGet {κ α : Type} [DecidableEq κ] (k : κ) : List (κ × α) → Option α
  | [] => none
  | (k', v) :: t => if k' = k then some v else dictGet k t

/-- Python `d[k] = v`: update an existing key in place, else append. -/
def dictInsert {κ α : Type} [DecidableEq κ] (k : κ) (v : α) : List (κ × α) → List (κ × α)
  | [] => [(k, v)]
  | (k', v') :: t => if k' = k then (k', v) :: t else (k', v') :: dictInsert k v t

/-- Python list slice `l[-n:]`. -/
def pyTail {α : Type} (n : Nat) (l : List α) : List α := l.drop (l.length - n)

/-- Python `random.choice(l)` with the draw supplied as an index. -/
def pyChoice (l : List (List Char)) (i : Nat) : List Char := l.getD (i % l.length) []

/-- Python `min(a, b)` on rationals. -/
def pyMin (a b : ℚ) : ℚ := if a ≤ b then a else b

/-- Fuel-driven worker for `pyReplace`; fuel `l.length` never runs out for a
nonempty pattern. -/
def pyReplaceAux (old new : List Char) : Nat → List Char → List Char
  | _, [] => []
  | 0, l => l
  | f + 1, c :: cs =>
    if old ≠ [] && old.isPrefixOf (c :: cs) then
      new ++ pyReplaceAux old new f (List.drop old.length (c :: cs))
    else c :: pyReplaceAux old new f cs

/-- Python `s.replace(old, new)`: all non-overlapping occurrences, left to
right. -/
def pyReplace (old new l : List Char) : List Char := pyReplaceAux old new l.length l

/-- Fuel-driven worker for `splitOnStr`. -/
def splitOnStrAux (sep : List Char) : Nat → List Char → List Char → List (List Char)
  | _, acc, [] => [acc.reverse]
  | 0, acc, l => [acc.reverse ++ l]
  | f + 1, acc, c :: cs =>
    if sep ≠ [] && sep.isPrefixOf (c :: cs) then
      acc.reverse :: splitOnStrAux sep f [] (List.drop sep.length (c :: cs))
    else splitOnStrAux sep f (c :: acc) cs

/-- Python `s.split(sep)` for a nonempty separator string. -/
def splitOnStr (sep l : List Char) : List (List Char) := splitOnStrAux sep l.length [] l

/-- Python `s.split(sep)[-1]`. -/
def lastSplitPart (sep l : List Char) : List Char := (splitOnStr sep l).getLastD []

/-- Python `s.split(sep)[0]`. -/
def firstSplitPart (sep l : List Char) : List Char := (splitOnStr sep l).headD []

/-- Python `s.startswith(p)`. -/
def pyStartsWith (p l : List Char) : Bool := p.isPrefixOf l

/-- Python `s.endswith(p)`. -/
def pyEndsWith (p l : List Char) : Bool := p.isSuffixOf l

/-- Python `word.isdigit()` (ASCII part). -/
def pyIsDigitWord (w : List Char) : Bool := !w.isEmpty && w.all Char.isDigit

/-- Python `int(w)` for a digit word. -/
def digitsToNat (w : List Char) : Nat := w.foldl (fun a c => a * 10 + (c.toNat - 48)) 0

/-- Python `" ".join(ws)`. -/
def joinSpace (ws : List (List Char)) : List Char := List.intercalate [' '] ws

/-- Python `"\n".join(ws)`. -/
def joinNewline (ws : List (List Char)) : List Char := List.intercalate ['\n'] ws

/-- Whether the text has any non-whitespace character (so Python
`s.strip()` is truthy). -/
def hasNonWs (l : List Char) : Bool := l.any (fun c => !isPySpace c)

/-- Any phrase of `ps` occurs as a substring of `l` (Python
`any(p in l for p in ps)`). -/
def anyContains (ps : List String) (l : List Char) : Bool :=
  ps.any (fun p => isSubstr p.toList l)

/-! ### `emotion_detector.py` -/

/-- Keyword table of `EmotionDetector.__init__` (dict in insertion order). -/
def emotionKeywords : List (String × List String) :=
  [ ( "happy", [ "happy", "joy", "excited", "great", "awesome", "wonderful", "amazing",
      "fantastic", "good", "smile", "laugh"]),
    ( "sad", [ "sad", "depressed", "down", "upset", "cry", "terrible", "awful", "bad",
      "disappointed", "hurt"]),
    ( "angry", [ "angry", "mad", "furious", "annoyed", "frustrated", "hate", "stupid",
      "idiot", "damn"]),
    ( "anxious", [ "worried", "nervous", "scared", "afraid", "anxious", "stress",
      "panic", "fear"]),
    ( "confused", [ "confused", "lost", "dont understand", "don\x27t get", "unclear",
      "what", "how", "why"]),
    ( "tired", [ "tired", "exhausted", "sleepy", "fatigue", "worn out", "drained"]),
    ( "excited", [ "excited", "thrilled", "pumped", "eager", "cant wait", "can\x27t wait"])]

/-- Python `sum(1 for keyword in keywords if keyword in text_lower)`. -/
def kwScore (textLower : List Char) (kws : List String) : Nat :=
  (kws.filter (fun k => isSubstr k.toList textLower)).length

/-- The `emotion_scores` dict built by `detect_emotion` (entries with a
positive score, in table order). -/
def emotionScores (textLower : List Char) : List (String × Nat) :=
  emotionKeywords.filterMap
    (fun p => if 0 < kwScore textLower p.2 then some (p.1, kwScore textLower p.2) else none)

/-- `EmotionDetector.detect_emotion`.  The Python floats `0.5` and the
quotient `score / word_count * 10` are modelled over `ℚ` (`mkRat` is the
same rational as the division, see `mkRat_confidence_eq`). -/
def detect_emotion (text : List Char) : String × ℚ :=
  match pyMaxBy Prod.snd (emotionScores (pyLower text)) with
  | none => ( "neutral", mkRat 1 2)
  | some (e, s) => (e, pyMin (mkRat (s * 10) (wordCount text)) 1)

/-- Empathy phrase table of `get_empathetic_response`. -/
def empathyResponses : List (String × List String) :=
  [ ( "happy",
      [ "That\x27s wonderful to hear! I\x27m glad you\x27re feeling good.",
        "Your happiness is contagious! What\x27s making you so happy?",
        "I love your positive energy! Keep that smile going."]),
    ( "sad",
      [ "I\x27m sorry you\x27re feeling down. I\x27m here to listen if you want to talk.",
        "It sounds like you\x27re going through a tough time. How can I help?",
        "I understand you\x27re feeling sad. Sometimes talking helps."]),
    ( "angry",
      [ "I can sense you\x27re frustrated. Let\x27s work through this together.",
        "It sounds like something really bothered you. Want to tell me about it?",
        "I hear your frustration. Let me try to help you with this."]),
    ( "anxious",
      [ "I can tell you\x27re feeling worried. Let\x27s take this step by step.",
        "It\x27s okay to feel anxious. I\x27m here to help you through this.",
        "Take a deep breath. We can figure this out together."]),
    ( "confused",
      [ "I can see this is confusing. Let me try to explain it more clearly.",
        "No worries about being confused. Let\x27s break this down together.",
        "I understand this might be unclear. Let me help clarify."]),
    ( "tired",
      [ "You sound exhausted. Make sure you\x27re getting enough rest.",
        "It seems like you need a break. Take care of yourself.",
        "Being tired can make everything harder. How can I help?"]),
    ( "excited",
      [ "I can feel your excitement! That\x27s amazing!",
        "Your enthusiasm is wonderful! Tell me more!",
        "I love your energy! What\x27s got you so excited?"])]

/-- `get_empathetic_response` (the `random.choice` draw is the index
`pick`; the `confidence` argument is unused by the source as well). -/
def get_empathetic_response (emotion : String) (pick : Nat) : List Char :=
  match dictGet emotion empathyResponses with
  | some rs => pyChoice (rs.map String.toList) pick
  | none => "I\x27m here to help you with whatever you need.".toList

/-! ### `personality_system.py` -/

/-- Per-personality data of the `PersonalitySystem.personalities` table. -/
structure PersonalityData where
  greeting : List String
  responseStyle : String
  traits : List String
  speechPatterns : List String
deriving DecidableEq

/-- The fixed five-entry personality table. -/
def personalities : List (String × PersonalityData) :=
  [ ( "friendly",
      { greeting := [ "Hello there! How can I help you today?", "Hi! Great to see you!",
          "Hey! What\x27s on your mind?"],
        responseStyle := "warm and welcoming",
        traits := [ "helpful", "cheerful", "supportive"],
        speechPatterns := [ "I\x27d love to help!", "That sounds interesting!",
          "Great question!"] }),
    ( "professional",
      { greeting := [ "Good day. How may I assist you?", "Hello. What can I help you with?",
          "Greetings. How can I be of service?"],
        responseStyle := "formal and efficient",
        traits := [ "precise", "knowledgeable", "reliable"],
        speechPatterns := [ "I can provide information on", "According to my analysis",
          "The optimal solution would be"] }),
    ( "funny",
      { greeting := [ "Hey there, human! Ready for some fun?",
          "Hello! I promise not to make too many bad jokes... maybe.",
          "Hi! Warning: Dad jokes may occur."],
        responseStyle := "humorous and playful",
        traits := [ "witty", "playful", "entertaining"],
        speechPatterns := [ "That reminds me of a joke...", "Funny you should ask!",
          "Here\x27s a fun fact:"] }),
    ( "wise",
      { greeting := [ "Greetings, seeker of knowledge.", "Hello. What wisdom do you seek today?",
          "Welcome. I sense you have questions."],
        responseStyle := "thoughtful and philosophical",
        traits := [ "contemplative", "insightful", "patient"],
        speechPatterns := [ "Consider this perspective:", "In my experience,",
          "Wisdom suggests that"] }),
    ( "energetic",
      { greeting := [ "HEY THERE! Ready to tackle the day?", "Hello! I\x27m super excited to help!",
          "Hi! Let\x27s make something awesome happen!"],
        responseStyle := "enthusiastic and motivating",
        traits := [ "energetic", "motivational", "optimistic"],
        speechPatterns := [ "That\x27s AMAZING!", "Let\x27s do this!", "You\x27ve got this!"] })]

/-- `PersonalitySystem` mutable state: the active personality name. -/
structure PState where
  current : String
deriving DecidableEq

/-- The `__init__` state (`current_personality = "friendly"`). -/
def initPState : PState := { current := "friendly" }

/-- `PersonalitySystem.set_personality`: returns the Python return value
and the state after the call. -/
def set_personality (name : String) (s : PState) : Bool × PState :=
  if (dictGet (pyLowerStr name) personalities).isSome then
    (true, { current := pyLowerStr name })
  else (false, s)

/-- `PersonalitySystem.get_current_personality_info`; `none` models the
`KeyError` raised on a missing table key. -/
def get_current_personality_info (s : PState) :
    Option (String × String × List String) :=
  (dictGet s.current personalities).map fun d => (s.current, d.responseStyle, d.traits)

/-- Random draws consumed by `apply_personality_to_response` and its
helpers: each Bool models one `random.random() < p` threshold test and
each Nat one `random.choice` pick. -/
structure StyleRand where
  flairOn : Bool
  flairPick : Nat
  humorOn : Bool
  humorPick : Nat
  profOn : Bool
  profPick : Nat
  energyOn : Bool
  energyPick : Nat
  wiseStartOn : Bool
  wiseStartPick : Nat
  wiseEndOn : Bool
  wiseEndPick : Nat

/-- Joke suffixes of `add_humor`. -/
def humorJokes : List String :=
  [ " (No pun intended... okay, maybe a little intended!)",
    " Speaking of which, why don\x27t scientists trust atoms? Because they make up everything!",
    " That\x27s what I call a \x27byte\x27 of information! Get it? Byte? I\x27ll see myself out..."]

/-- `PersonalitySystem.add_humor`. -/
def add_humor (r : StyleRand) (resp : List Char) : List Char :=
  let resp := if r.humorOn then resp ++ pyChoice (humorJokes.map String.toList) r.humorPick else resp
  let resp := pyReplace ( "I think".toList) ( "I reckon".toList) resp
  pyReplace ( "However".toList) ( "But hey".toList) resp

/-- Starter phrases of `make_professional`. -/
def professionalStarters : List String :=
  [ "Based on available information, ", "According to current data, ",
    "From a professional standpoint, "]

/-- `PersonalitySystem.make_professional`. -/
def make_professional (r : StyleRand) (resp : List Char) : List Char :=
  let resp := pyReplace ( "I think".toList) ( "I believe".toList) resp
  let resp := pyReplace ( "pretty good".toList) ( "quite effective".toList) resp
  let resp := pyReplace ( "really".toList) ( "particularly".toList) resp
  if r.profOn then pyChoice (professionalStarters.map String.toList) r.profPick ++ pyLower resp
  else resp

/-- Suffixes of `add_energy`. -/
def energeticAdditions : List String :=
  [ " Let\x27s make it happen!", " This is going to be great!",
    " I\x27m excited to help with this!"]

/-- `PersonalitySystem.add_energy`. -/
def add_energy (r : StyleRand) (resp : List Char) : List Char :=
  let resp :=
    if !(pyEndsWith ( "!".toList) resp || pyEndsWith ( "?".toList) resp ||
         pyEndsWith ( ".".toList) resp)
    then resp ++ "!".toList else resp
  let resp := pyReplace ( "good".toList) ( "AWESOME".toList) resp
  let resp := pyReplace ( "yes".toList) ( "ABSOLUTELY YES".toList) resp
  let resp := pyReplace ( "I can".toList) ( "I\x27d LOVE to".toList) resp
  if r.energyOn then resp ++ pyChoice (energeticAdditions.map String.toList) r.energyPick
  else resp

/-- Starters of `add_wisdom`. -/
def wiseStarters : List String :=
  [ "In my contemplation, ", "Through careful consideration, ",
    "Reflecting on this matter, "]

/-- Endings of `add_wisdom`. -/
def wiseEndings : List String :=
  [ " Such is the nature of knowledge.", " This requires thoughtful consideration.",
    " Wisdom comes through understanding."]

/-- `PersonalitySystem.add_wisdom`. -/
def add_wisdom (r : StyleRand) (resp : List Char) : List Char :=
  let resp :=
    if r.wiseStartOn then
      pyChoice (wiseStarters.map String.toList) r.wiseStartPick ++ pyLower resp
    else resp
  if r.wiseEndOn then resp ++ pyChoice (wiseEndings.map String.toList) r.wiseEndPick
  else resp

/-- `PersonalitySystem.apply_personality_to_response`; `none` models the
`KeyError` on a missing personality key. -/
def apply_personality_to_response (r : StyleRand) (s : PState) (resp : List Char) :
    Option (List Char) :=
  match dictGet s.current personalities with
  | none => none
  | some d =>
    let resp :=
      if r.flairOn then pyChoice (d.speechPatterns.map String.toList) r.flairPick ++
        " ".toList ++ resp
      else resp
    let resp :=
      if s.current = "funny" then add_humor r resp
      else if s.current = "professional" then make_professional r resp
      else if s.current = "energetic" then add_energy r resp
      else if s.current = "wise" then add_wisdom r resp
      else resp
    some resp


/-! ### `context_memory.py` -/

/-- One element of `session_memory`. -/
structure SessionItem where
  userInput : List Char
  aiResponse : List Char
  timestamp : List Char
  sessionId : List Char
deriving DecidableEq

/-- One element of `long_term_memory["conversations"]`. -/
structure ConvItem where
  userInput : List Char
  aiResponse : List Char
  timestamp : List Char
  importance : Nat
deriving DecidableEq

/-- `ContextMemory` state: the session buffer, the `conversations` list and
the `user_info` / `topics` mappings of `long_term_memory`. -/
structure MemState where
  sessionMemory : List SessionItem
  conversations : List ConvItem
  userName : Option (List Char)
  userLocation : Option (List Char)
  userAge : Option Nat
  userInterests : List (List Char)
  topics : List (String × Nat)
deriving DecidableEq

/-- The empty default structure `load_memory` falls back to. -/
def initMemState : MemState :=
  { sessionMemory := [], conversations := [], userName := none, userLocation := none,
    userAge := none, userInterests := [], topics := [] }

/-- `ContextMemory.add_to_session_memory` (the timestamp and session id
come from the wall clock, supplied as arguments). -/
def add_to_session_memory (nowIso sessionId : List Char) (userInput aiResponse : List Char)
    (s : MemState) : MemState :=
  let mem := s.sessionMemory ++
    [{ userInput := userInput, aiResponse := aiResponse, timestamp := nowIso,
       sessionId := sessionId }]
  if 20 < mem.length then { s with sessionMemory := pyTail 20 mem }
  else { s with sessionMemory := mem }

/-- `ContextMemory.calculate_importance`. -/
def calculate_importance (userInput : List Char) : Nat :=
  let text := pyLower userInput
  (if anyContains [ "my name", "i am", "i live", "my age", "my job"] text then 5 else 0) +
  (if isSubstr ( "?".toList) text then 2 else 0) +
  (if anyContains [ "love", "hate", "sad", "happy", "angry", "excited"] text then 3 else 0) +
  (if anyContains [ "help", "please", "can you", "need"] text then 2 else 0) +
  (if 10 < wordCount text then 1 else 0)

/-- Whether the name branch of `extract_user_info` raises `IndexError`:
`"my name is"` occurs but only whitespace follows its last occurrence, so
`text.split("my name is")[-1].strip().split()[0]` indexes an empty list. -/
def nameExtractionRaises (userInput : List Char) : Bool :=
  let text := pyLower userInput
  isSubstr ( "my name is".toList) text &&
    (pyWords (pyStrip (lastSplitPart ( "my name is".toList) text))).isEmpty

/-- `ContextMemory.extract_user_info`; `none` models the `IndexError`
raised by the name branch on a trailing `"my name is"`. -/
def extract_user_info (userInput : List Char) (s : MemState) : Option MemState :=
  let text := pyLower userInput
  if isSubstr ( "my name is".toList) text &&
      (pyWords (pyStrip (lastSplitPart ( "my name is".toList) text))).isEmpty then
    none
  else
    let s :=
      if isSubstr ( "my name is".toList) text then
        let nm := (pyWords (pyStrip (lastSplitPart ( "my name is".toList) text))).headD []
        { s with userName := some nm }
      else s
    let s :=
      if isSubstr ( "i live in".toList) text || isSubstr ( "i am from".toList) text then
        let sep := if isSubstr ( "in".toList) text then "in".toList else "from".toList
        { s with userLocation := some (pyStrip (lastSplitPart sep text)) }
      else s
    let s :=
      if isSubstr ( "i am".toList) text && isSubstr ( "years old".toList) text then
        match (pyWords text).filter pyIsDigitWord with
        | [] => s
        | w :: _ => { s with userAge := some (digitsToNat w) }
      else s
    let s :=
      if isSubstr ( "i like".toList) text || isSubstr ( "i love".toList) text then
        let sep := if isSubstr ( "like".toList) text then "like".toList else "love".toList
        { s with userInterests := s.userInterests ++ [pyStrip (lastSplitPart sep text)] }
      else s
    some s

/-- Topic keyword table of `extract_topics`. -/
def topicsTable : List (String × List String) :=
  [ ( "technology", [ "computer", "software", "ai", "robot", "internet", "phone"]),
    ( "science", [ "physics", "chemistry", "biology", "space", "research"]),
    ( "entertainment", [ "movie", "music", "game", "book", "tv", "show"]),
    ( "food", [ "eat", "food", "cook", "recipe", "restaurant", "meal"]),
    ( "travel", [ "travel", "trip", "vacation", "country", "city", "visit"]),
    ( "work", [ "job", "work", "career", "office", "business", "company"]),
    ( "health", [ "health", "exercise", "doctor", "medicine", "fitness"]),
    ( "education", [ "school", "study", "learn", "university", "course"])]

/-- `ContextMemory.extract_topics`. -/
def extract_topics (userInput : List Char) (s : MemState) : MemState :=
  let text := pyLower userInput
  topicsTable.foldl
    (fun s p =>
      if anyContains p.2 text then
        { s with topics := dictInsert p.1 ((dictGet p.1 s.topics).getD 0 + 1) s.topics }
      else s)
    s

/-- Stable insertion into a list sorted by descending importance: a new
element goes after all earlier elements of equal importance. -/
def insertByImportance (e : ConvItem) : List ConvItem → List ConvItem
  | [] => [e]
  | x :: xs => if x.importance < e.importance then e :: x :: xs else x :: insertByImportance e xs

/-- Stable sort by descending `importance`, modelling Python
`sorted(l, key=lambda x: x.get("importance", 0), reverse=True)` (Python's
`sorted` is stable and `reverse=True` keeps equal elements in original
order, which this insertion sort reproduces). -/
def sortByImportance : List ConvItem → List ConvItem
  | [] => []
  | x :: xs => insertByImportance x (sortByImportance xs)

/-- `ContextMemory.add_to_long_term_memory`.  When `extract_user_info`
raises (`none`), the method aborts after the append: the topic extraction,
the 100-entry trim and the save are all skipped, and the exception is
swallowed by the `ThreadPoolExecutor` future of the caller. -/
def add_to_long_term_memory (nowIso : List Char) (userInput aiResponse : List Char)
    (s : MemState) : MemState :=
  let item : ConvItem :=
    { userInput := userInput, aiResponse := aiResponse, timestamp := nowIso,
      importance := calculate_importance userInput }
  let s1 := { s with conversations := s.conversations ++ [item] }
  match extract_user_info userInput s1 with
  | none => s1
  | some s2 =>
    let s3 := extract_topics userInput s2
    if 100 < s3.conversations.length then
      { s3 with conversations := (sortByImportance s3.conversations).take 100 }
    else s3

/-- `ContextMemory.get_relevant_context` (its `current_input` parameter is
unused by the source, so it is omitted here). -/
def get_relevant_context (s : MemState) : List Char :=
  let recent : List (List Char) :=
    if s.sessionMemory.isEmpty then []
    else
      "Recent conversation:".toList ::
        (pyTail 3 s.sessionMemory).foldr
          (fun m acc => ( "You: ".toList ++ m.userInput) :: ( "AI: ".toList ++ m.aiResponse) :: acc)
          []
  let userInfo : List (List Char) :=
    (match s.userName with
     | some n => [ "User\x27s name: ".toList ++ n]
     | none => []) ++
    (match s.userLocation with
     | some loc => [ "Location: ".toList ++ loc]
     | none => [])
  let hasUserInfo : Bool :=
    s.userName.isSome || s.userLocation.isSome || s.userAge.isSome || !s.userInterests.isEmpty
  let infoLine : List (List Char) :=
    if hasUserInfo && !userInfo.isEmpty then
      [ "User information: ".toList ++ List.intercalate ( ", ".toList) userInfo]
    else []
  let context := recent ++ infoLine
  if context.isEmpty then [] else joinNewline context

/-! ### `learning_system.py` -/

/-- One element of a `learned_knowledge` bucket. -/
structure LearnedItem where
  response : List Char
  successCount : Nat
  timestamp : List Char
deriving DecidableEq

/-- One element of a `conversation_patterns` bucket. -/
structure PatternItem where
  input : List Char
  response : List Char
  timestamp : List Char
deriving DecidableEq

/-- `LearningSystem` state: the three persisted stores. -/
structure LearnState where
  learnedKnowledge : List (List Char × List LearnedItem)
  prefFavColor : Option (List Char)
  prefFavFood : Option (List Char)
  prefName : Option (List Char)
  prefLocation : Option (List Char)
  patterns : List (String × List PatternItem)
deriving DecidableEq

/-- The empty default stores `load_learned_data` falls back to. -/
def initLearnState : LearnState :=
  { learnedKnowledge := [], prefFavColor := none, prefFavFood := none, prefName := none,
    prefLocation := none, patterns := [] }

/-- `LearningSystem.classify_input_type`. -/
def classify_input_type (userInput : List Char) : String :=
  let text := pyLower userInput
  if anyContains [ "hello", "hi", "hey", "good morning"] text then "greeting"
  else if isSubstr ( "?".toList) text then "question"
  else if anyContains [ "thanks", "thank you", "bye", "goodbye"] text then "closing"
  else if anyContains [ "help", "can you", "please"] text then "request"
  else "general"

/-- `LearningSystem.extract_preferences`; the second component is `true`
when the name branch raises `IndexError` (same trailing-`"my name is"`
slip as `ContextMemory.extract_user_info`), in which case the updates
already made stand and the rest of `learn_from_conversation` is skipped. -/
def extract_preferences (userInput : List Char) (s : LearnState) : LearnState × Bool :=
  let text := pyLower userInput
  let s :=
    if isSubstr ( "my favorite".toList) text || isSubstr ( "i like".toList) text ||
        isSubstr ( "i love".toList) text then
      let s :=
        if isSubstr ( "color".toList) text then
          match ([ "red", "blue", "green", "yellow", "purple", "orange", "black",
              "white"].filter (fun c => isSubstr (String.toList c) text)).getLast? with
          | some c => { s with prefFavColor := some c.toList }
          | none => s
        else s
      if isSubstr ( "food".toList) text then
        match ([ "pizza", "burger", "pasta", "rice", "chicken", "fish",
            "salad"].filter (fun c => isSubstr (String.toList c) text)).getLast? with
        | some c => { s with prefFavFood := some c.toList }
        | none => s
      else s
    else s
  if isSubstr ( "my name is".toList) text then
    match pyWords (pyStrip (lastSplitPart ( "my name is".toList) text)) with
    | [] => (s, true)
    | w :: _ =>
      let s := { s with prefName := some w }
      if isSubstr ( "i am from".toList) text || isSubstr ( "i live in".toList) text then
        let sep := if isSubstr ( "from".toList) text then "from".toList else "in".toList
        ({ s with prefLocation := some (pyStrip (lastSplitPart sep text)) }, false)
      else (s, false)
  else
    if isSubstr ( "i am from".toList) text || isSubstr ( "i live in".toList) text then
      let sep := if isSubstr ( "from".toList) text then "from".toList else "in".toList
      ({ s with prefLocation := some (pyStrip (lastSplitPart sep text)) }, false)
    else (s, false)

/-- `LearningSystem.analyze_conversation_pattern`. -/
def analyze_conversation_pattern (nowIso : List Char) (userInput aiResponse : List Char)
    (s : LearnState) : LearnState :=
  let itype := classify_input_type userInput
  let bucket := (dictGet itype s.patterns).getD [] ++
    [{ input := userInput, response := aiResponse, timestamp := nowIso }]
  let bucket := if 10 < bucket.length then pyTail 10 bucket else bucket
  { s with patterns := dictInsert itype bucket s.patterns }

/-- `LearningSystem.store_successful_response`. -/
def store_successful_response (nowIso : List Char) (userInput aiResponse : List Char)
    (s : LearnState) : LearnState :=
  let key := (pyLower userInput).take 50
  let bucket := (dictGet key s.learnedKnowledge).getD [] ++
    [{ response := aiResponse, successCount := 1, timestamp := nowIso }]
  { s with learnedKnowledge := dictInsert key bucket s.learnedKnowledge }

/-- `LearningSystem.learn_from_conversation` with `user_feedback=None`
(the only way the orchestrator calls it). -/
def learn_from_conversation (nowIso : List Char) (userInput aiResponse : List Char)
    (s : LearnState) : LearnState :=
  match extract_preferences userInput s with
  | (s1, true) => s1
  | (s1, false) =>
    let s2 := analyze_conversation_pattern nowIso userInput aiResponse s1
    if anyContains [ "thanks", "good", "great", "perfect"] (pyLower userInput) then
      store_successful_response nowIso userInput aiResponse s2
    else s2

/-- `LearningSystem.get_contextual_response`. -/
def get_contextual_response (s : LearnState) (userInput : List Char) : List Char :=
  let itype := classify_input_type userInput
  match dictGet itype s.patterns with
  | some bucket =>
    match bucket.getLast? with
    | some recent => "Based on our previous conversations, ".toList ++ recent.response
    | none => "Let me help you with that.".toList
  | none => "Let me help you with that.".toList

/-- `LearningSystem.get_personalized_response`; `Except.error` models the
`ValueError` raised by `max` on an empty stored bucket (caught by the
caller's enhancement `try`). -/
def get_personalized_response (s : LearnState) (userInput : List Char) :
    Except Unit (Option (List Char)) :=
  let key := (pyLower userInput).take 50
  match dictGet key s.learnedKnowledge with
  | some bucket =>
    match pyMaxBy LearnedItem.successCount bucket with
    | some best => Except.ok (some best.response)
    | none => Except.error ()
  | none =>
    match s.prefName with
    | some n => Except.ok (some ( "Hi ".toList ++ n ++ "! ".toList ++
        get_contextual_response s userInput))
    | none => Except.ok none

/-! ### `common_sense.py` -/

/-- `CommonSense.get_realistic_alternative`. -/
def get_realistic_alternative (query : List Char) : List Char :=
  let ql := pyLower query
  if isSubstr ( "fly".toList) ql && isSubstr ( "human".toList) ql then
    "Humans can\x27t fly naturally, but we can use airplanes, helicopters, or other aircraft to travel through the air.".toList
  else if isSubstr ( "breathe underwater".toList) ql then
    "Humans can\x27t breathe underwater naturally, but we can use scuba gear or submarines to explore underwater.".toList
  else "Let me provide a more realistic perspective on that.".toList

/-- `CommonSense.check_logical_consistency`. -/
def check_logical_consistency (query resp : List Char) : List Char :=
  let ql := pyLower query
  let rl := pyLower resp
  if isSubstr ( "yesterday".toList) ql && isSubstr ( "tomorrow".toList) rl then
    "I think there might be some confusion about time. Let me clarify: ".toList ++ resp
  else if (isSubstr ( "water".toList) rl && isSubstr ( "burn".toList) rl) ||
      (isSubstr ( "ice".toList) rl && isSubstr ( "hot".toList) rl) ||
      (isSubstr ( "fly".toList) rl && isSubstr ( "human".toList) ql &&
        !isSubstr ( "without".toList) rl) then
    "That doesn\x27t seem physically possible. Let me give you a more realistic answer: ".toList ++
      get_realistic_alternative query
  else resp

/-- `CommonSense.add_practical_context`. -/
def add_practical_context (query resp : List Char) : List Char :=
  let ql := pyLower query
  let resp :=
    if anyContains [ "rain", "cold", "hot", "snow"] ql then
      if isSubstr ( "rain".toList) ql then
        resp ++ " By the way, if it\x27s raining, don\x27t forget an umbrella!".toList
      else if isSubstr ( "cold".toList) ql then
        resp ++ " In cold weather, make sure to dress warmly.".toList
      else if isSubstr ( "hot".toList) ql then
        resp ++ " In hot weather, stay hydrated and seek shade.".toList
      else resp
    else resp
  let resp :=
    if anyContains [ "drive", "driving", "car"] ql then
      resp ++ " Remember to always drive safely and follow traffic rules.".toList
    else resp
  let resp :=
    if anyContains [ "sick", "illness", "pain", "hurt"] ql then
      resp ++ " If you\x27re experiencing health issues, it\x27s best to consult with a healthcare professional.".toList
    else resp
  if anyContains [ "busy", "time", "schedule"] ql then
    resp ++ " Good time management can help reduce stress and improve productivity.".toList
  else resp

/-- `CommonSense.apply_safety_filter`. -/
def apply_safety_filter (resp : List Char) : List Char :=
  if anyContains [ "dangerous", "illegal", "harmful", "unsafe"] (pyLower resp) then
    "I want to make sure I give you safe and helpful advice. ".toList ++ resp ++
      " Please prioritize your safety and follow local laws and guidelines.".toList
  else resp

/-- `CommonSense.add_contextual_awareness` (current hour and month come
from the wall clock, supplied as arguments). -/
def add_contextual_awareness (hour month : Nat) (query resp : List Char) : List Char :=
  let ql := pyLower query
  let resp :=
    if isSubstr ( "good morning".toList) ql && 12 < hour then
      "Actually, it\x27s afternoon now, but good day to you too! ".toList ++ resp
    else if isSubstr ( "good evening".toList) ql && hour < 17 then
      "It\x27s still daytime, but good day! ".toList ++ resp
    else resp
  if (month = 12 || month = 1 || month = 2) && isSubstr ( "summer".toList) ql then
    "Just to note, it\x27s currently winter season. ".toList ++ resp
  else if (month = 6 || month = 7 || month = 8) && isSubstr ( "winter".toList) ql then
    "Just to note, it\x27s currently summer season. ".toList ++ resp
  else resp

/-- `CommonSense.enhance_with_common_sense` (`check_contradictions` only
appends to a never-read context list and returns its argument, so it is
the identity on the response). -/
def enhance_with_common_sense (hour month : Nat) (query resp : List Char) : List Char :=
  let enhanced := apply_safety_filter (add_practical_context query
    (check_logical_consistency query resp))
  add_contextual_awareness hour month query enhanced

/-! ### `terminal_ai_fixed.py` -/

/-- One element of `TerminalAI.conversation_memory`. -/
structure ConvMemItem where
  question : List Char
  answer : List Char
  timestamp : List Char
deriving DecidableEq

/-- One value of the `TerminalAI.knowledge` mapping. -/
structure KnowledgeItem where
  answer : List Char
  timestamp : List Char
  usageCount : Nat
deriving DecidableEq

/-- External world supplied to one `TerminalAI` call: the Ollama backend
and the search client (`none` models a raised exception), the wall clock,
and the random draws of the enhancement pipeline. -/
structure AIEnv where
  ollama : List Char → List Char → Option (List Char)
  webSearch : List Char → Option (List Char)
  nowIso : List Char
  sessionId : List Char
  hour : Nat
  month : Nat
  elapsed : ℚ
  empathyPick : Nat
  style : StyleRand

/-- `TerminalAI` mutable state (the fields `smart_response` reads or
writes; performance counters included, debug/voice/news fields omitted). -/
structure AIState where
  responseCache : List (List Char × List Char)
  searchCache : List (List Char × List Char)
  lastClear : ℚ
  totalQueries : Nat
  cacheHits : Nat
  searchRequests : Nat
  averageResponseTime : ℚ
  conversationContext : List (List Char)
  conversationMemory : List ConvMemItem
  knowledge : List (List Char × KnowledgeItem)
  mem : MemState
  learn : LearnState
  pers : PState
  transLanguage : String

/-- The freshly initialized state (empty caches and stores). -/
def initAIState : AIState :=
  { responseCache := [], searchCache := [], lastClear := 0, totalQueries := 0,
    cacheHits := 0, searchRequests := 0, averageResponseTime := 0,
    conversationContext := [], conversationMemory := [], knowledge := [],
    mem := initMemState, learn := initLearnState, pers := initPState,
    transLanguage := "english" }

/-- `TerminalAI._clear_old_cache` (called only from `_load_initial_data`
during `__init__`; `now` is the wall clock and the TTL comparison is on
`total_seconds()`). -/
def clear_old_cache (now : ℚ) (s : AIState) : AIState :=
  let s :=
    if 3600 < now - s.lastClear then
      { s with responseCache := [], searchCache := [], lastClear := now }
    else s
  if 1000 < s.responseCache.length then
    { s with responseCache := pyTail 500 s.responseCache }
  else s

/-- `TerminalAI._update_response_time`. -/
def update_response_time (rt : ℚ) (s : AIState) : AIState :=
  if s.totalQueries = 0 then { s with averageResponseTime := rt }
  else
    { s with averageResponseTime :=
        (s.averageResponseTime * s.totalQueries + rt) / (s.totalQueries + 1) }

/-- `TerminalAI._generate_cache_key`: `f"{prompt}:{context}".lower()[:100]`. -/
def generate_cache_key (prompt context : List Char) : List Char :=
  (pyLower (prompt ++ ":".toList ++ context)).take 100

/-- The `fallback_responses` table of `_get_fallback_response` (dict in
insertion order). -/
def fallbackResponses : List (String × String) :=
  [ ( "hello", "Hello! How can I help you today?"),
    ( "hi", "Hi there! What can I do for you?"),
    ( "how are you", "I\x27m doing well, thank you! How are you?"),
    ( "thanks", "You\x27re welcome! Happy to help!"),
    ( "bye", "Goodbye! Have a great day!")]

/-- `TerminalAI._get_fallback_response`. -/
def get_fallback_response (prompt : List Char) : List Char :=
  let promptLower := pyStrip (pyLower prompt)
  match fallbackResponses.find? (fun p => isSubstr p.1.toList promptLower) with
  | some p => p.2.toList
  | none =>
    "I\x27m having trouble processing that right now. Could you please try again or rephrase your question?".toList

/-- `TerminalAI._get_system_prompt`; `none` models the `KeyError` from a
missing personality key (caught by `get_ai_response`). -/
def get_system_prompt (s : AIState) : Option (List Char) :=
  (get_current_personality_info s.pers).map fun info =>
    "You are a helpful AI assistant. Respond naturally and conversationally. For greetings, respond with simple greetings. For questions, provide clear and accurate answers. ".toList ++
      "Your personality is ".toList ++ info.1.toList ++ " - ".toList ++
      info.2.1.toList ++ ". ".toList

/-- `TerminalAI._prepare_full_prompt`. -/
def prepare_full_prompt (prompt context : List Char) : List Char :=
  if !(pyStrip context).isEmpty then
    let context := if 1000 < context.length then context.take 1000 ++ "...".toList else context
    "Based on this information: ".toList ++ context ++ "\n\n".toList ++
      "Question: ".toList ++ prompt ++
      "\n\nProvide a helpful response in 2-3 sentences.".toList
  else prompt

/-- `TerminalAI._call_ollama_with_timeout`: the backend reply is stripped;
`none` models any raised exception (caught, logged, `None` returned). -/
def call_ollama_with_timeout (env : AIEnv) (systemPrompt fullPrompt : List Char) :
    Option (List Char) :=
  (env.ollama systemPrompt fullPrompt).map pyStrip

/-- `TerminalAI.get_ai_response`.  The `except` branch of the source can
only be reached through the `KeyError` of `_get_system_prompt` (modelled)
— every other statement either cannot raise or catches internally. -/
def get_ai_response (env : AIEnv) (s : AIState) (prompt : List Char)
    (context : List Char := []) : List Char × AIState :=
  let s := { s with totalQueries := s.totalQueries + 1 }
  let cacheKey := generate_cache_key prompt context
  match dictGet cacheKey s.responseCache with
  | some v => (v, { s with cacheHits := s.cacheHits + 1 })
  | none =>
    match get_system_prompt s with
    | none => (get_fallback_response prompt, s)
    | some systemPrompt =>
      let fullPrompt := prepare_full_prompt prompt context
      match call_ollama_with_timeout env systemPrompt fullPrompt with
      | some resp =>
        if !resp.isEmpty then
          (resp, update_response_time env.elapsed
            { s with responseCache := dictInsert cacheKey resp s.responseCache })
        else (get_fallback_response prompt, s)
      | none => (get_fallback_response prompt, s)

/-- `TerminalAI._clean_search_query`. -/
def clean_search_query (query : List Char) : List Char :=
  let query :=
    if isSubstr ( "Current question:".toList) query then
      pyStrip (lastSplitPart ( "Current question:".toList) query)
    else query
  let query :=
    if isSubstr ( "Conversation context:".toList) query then
      pyStrip (firstSplitPart ( "Conversation context:".toList) query)
    else query
  let ws := pyWords query
  let query := if 10 < ws.length then joinSpace (ws.take 10) else query
  pyStrip query

/-- `TerminalAI.search_web`. -/
def search_web (env : AIEnv) (s : AIState) (query : List Char) : List Char × AIState :=
  let cleanQuery := clean_search_query query
  let cacheKey := (pyLower cleanQuery).take 100
  match dictGet cacheKey s.searchCache with
  | some v => (v, { s with cacheHits := s.cacheHits + 1 })
  | none =>
    let s := { s with searchRequests := s.searchRequests + 1 }
    match env.webSearch cleanQuery with
    | none =>
      ( "I couldn\x27t search for \x27".toList ++ cleanQuery ++
          "\x27 right now, but I can provide general information.".toList, s)
    | some result =>
      let s :=
        if !result.isEmpty && !isSubstr ( "error".toList) (pyLower result) then
          { s with searchCache := dictInsert cacheKey result s.searchCache }
        else s
      (result, update_response_time env.elapsed s)

/-- `TerminalAI.needs_search` rule tiers, in source order. -/
def immediateSkip : List String :=
  [ "hello", "hi", "hey", "thanks", "thank you", "bye", "goodbye",
    "how are you", "what can you do", "who are you", "good morning",
    "good evening", "nice", "great", "okay", "yes", "no", "sure",
    "alright", "fine", "cool", "awesome", "perfect"]

/-- Command patterns of `needs_search` (tier 2). -/
def commandPatterns : List String :=
  [ "personality", "memory stats", "voice test", "breaking news",
    "news", "search live", "ask me a question", "quiz me"]

/-- Priority search triggers of `needs_search` (tier 3). -/
def priorityTriggers : List String :=
  [ "current", "latest", "recent", "today", "now", "2024", "2025",
    "breaking", "live", "real-time", "up-to-date"]

/-- Information-request phrases of `needs_search` (tier 4). -/
def infoRequests : List String :=
  [ "price of", "cost of", "statistics", "population", "rate",
    "weather in", "temperature", "forecast", "news about",
    "best colleges", "best hospitals", "best restaurants",
    "deaths in", "mortality", "crime rate", "happened in"]

/-- Location indicators of `needs_search` (tier 5). -/
def locationIndicators : List String :=
  [ "near me", "in my area", "pincode", "pin code"]

/-- Basic-knowledge allowlist of `needs_search` (tier 6). -/
def basicKnowledge : List String :=
  [ "what is love", "what is life", "what is happiness",
    "what is water", "what is fire", "what is human",
    "bones in human", "human bones"]

/-- `TerminalAI.needs_search`. -/
def needs_search (query : List Char) : Bool :=
  let queryLower := pyStrip (pyLower query)
  if anyContains immediateSkip queryLower then false
  else if anyContains commandPatterns queryLower then false
  else if anyContains priorityTriggers queryLower then true
  else if anyContains infoRequests queryLower then true
  else if anyContains locationIndicators queryLower then true
  else if anyContains basicKnowledge queryLower then false
  else
    isSubstr ( "?".toList) query ||
      ([ "what", "how", "when", "where", "why",
        "who"].any (fun w => pyStartsWith w.toList queryLower))

/-- Word character for the regex `\b` boundary (`\w`, ASCII part). -/
def isWordChar (c : Char) : Bool := c.isAlphanum || c = '_'

/-- Leftmost match of the regex `\b\d{6}\b` (`re.search(r'\b\d{6}\b', q)`):
a run of six digits whose neighbours on both sides are absent or
non-word characters.  `prev` is the character before the scan position. -/
def pincodeScan (prev : Option Char) : List Char → Option (List Char)
  | [] => none
  | c :: rest =>
    if (match prev with | none => true | some p => !isWordChar p) &&
        ((c :: rest).take 6).length = 6 && ((c :: rest).take 6).all Char.isDigit &&
        (match (c :: rest).drop 6 with | [] => true | d :: _ => !isWordChar d) then
      some ((c :: rest).take 6)
    else pincodeScan (some c) rest

/-- `TerminalAI.extract_pincode_from_query` (the validation accepts a
first digit of 1-9, i.e. rejects a leading zero). -/
def extract_pincode_from_query (query : List Char) : Option (List Char) :=
  match pincodeScan none query with
  | some pincode =>
    if [ '1', '2', '3', '4', '5', '6', '7', '8', '9'].any
        (fun d => pyStartsWith [d] pincode) then
      some pincode
    else none
  | none => none

/-- `TerminalAI.enhance_query_with_location` (the returned option is the
`location_info` dict, carrying the pincode). -/
def enhance_query_with_location (query : List Char) : List Char × Option (List Char) :=
  match extract_pincode_from_query query with
  | some pincode =>
    let baseQuery := pyReplace ( "pin code ".toList ++ pincode) [] query
    let baseQuery := pyReplace ( "pincode ".toList ++ pincode) [] baseQuery
    let baseQuery := pyStrip (pyReplace ( "near me".toList) [] baseQuery)
    (baseQuery ++ " near ".toList ++ pincode ++ " India".toList, some pincode)
  | none => (query, none)

/-- `TerminalAI._create_search_prompt`. -/
def create_search_prompt (query : List Char) (locationInfo : Option (List Char)) :
    List Char :=
  let basePrompt :=
    "Using the latest search results provided, give current 2025 information about: ".toList ++
      query ++ ". Focus on recent data and current trends. Avoid outdated information.".toList
  match locationInfo with
  | some pincode => basePrompt ++ " Location context: ".toList ++ pincode
  | none => basePrompt

/-- `TerminalAI._should_add_memory_context`. -/
def should_add_memory_context (query : List Char) : Bool :=
  anyContains [ "remember", "earlier", "before", "previous", "last time",
    "you said", "we talked", "mentioned", "discussed"] (pyLower query)

/-- `TerminalAI._needs_common_sense_check` (the `logic_keywords` list of
the source is defined but never used). -/
def needs_common_sense_check (query resp : List Char) : Bool :=
  anyContains [ "dangerous", "harmful", "illegal", "unsafe", "hurt", "damage"]
    (pyLower resp) ||
  anyContains [ "fly without", "breathe underwater", "time travel", "live forever"]
    (pyLower query)

/-- `TerminalAI.enhance_ai_response`.  Python's `except` returns the
current value of the variable `raw_response`, i.e. the empathy-prefixed
text when step 2 already ran; the two modelled exception sources are the
personality `KeyError` and the `ValueError` of `max` on an empty learned
bucket. -/
def enhance_ai_response (env : AIEnv) (s : AIState) (query rawResponse : List Char) :
    List Char :=
  let ec := detect_emotion query
  let rawResponse :=
    if mkRat 85 100 < ec.2 then
      get_empathetic_response ec.1 env.empathyPick ++ " ".toList ++ rawResponse
    else rawResponse
  match apply_personality_to_response env.style s.pers rawResponse with
  | none => rawResponse
  | some resp =>
    let resp :=
      if needs_common_sense_check query resp then
        enhance_with_common_sense env.hour env.month query resp
      else resp
    let resp :=
      if should_add_memory_context query && !(get_relevant_context s.mem).isEmpty then
        "Based on our conversation, ".toList ++ resp
      else resp
    match get_personalized_response s.learn query with
    | Except.error _ => rawResponse
    | Except.ok personalized =>
      let resp :=
        match personalized with
        | some p => if !p.isEmpty && p.length < resp.length then p else resp
        | none => resp
      pyStrip resp

/-- `TerminalAI._apply_translation`: `SimpleTranslation.translate_response`
returns its input unchanged, so both branches yield the response. -/
def apply_translation (s : AIState) (resp : List Char) : List Char :=
  if s.transLanguage ≠ "english" then resp else resp

/-- `TerminalAI.save_to_memory`. -/
def save_to_memory (env : AIEnv) (query resp : List Char) (s : AIState) : AIState :=
  let mem := s.conversationMemory ++
    [{ question := query, answer := resp, timestamp := env.nowIso }]
  if 15 < mem.length then { s with conversationMemory := pyTail 10 mem }
  else { s with conversationMemory := mem }

/-- `TerminalAI.save_knowledge` (the file write has no in-memory effect). -/
def save_knowledge (env : AIEnv) (query answer : List Char) (s : AIState) : AIState :=
  let key := (pyLower query).take 100
  let usage := (match dictGet key s.knowledge with
    | some it => it.usageCount
    | none => 0) + 1
  let item : KnowledgeItem :=
    { answer := answer, timestamp := env.nowIso, usageCount := usage }
  { s with knowledge := dictInsert key item s.knowledge }

/-- `TerminalAI.save_enhanced_memory`: the five writers are submitted to
the worker pool; their state effects are modelled as applied in submission
order, and an exception inside a writer (the trailing-`"my name is"`
`IndexError`) is swallowed by its future. -/
def save_enhanced_memory (env : AIEnv) (query resp : List Char) (s : AIState) : AIState :=
  let s := save_to_memory env query resp s
  let s := save_knowledge env query resp s
  let s := { s with mem := add_to_session_memory env.nowIso env.sessionId query resp s.mem }
  let s := { s with mem := add_to_long_term_memory env.nowIso query resp s.mem }
  { s with learn := learn_from_conversation env.nowIso query resp s.learn }

/-- `TerminalAI._update_conversation_context`. -/
def update_conversation_context (query resp : List Char) (s : AIState) : AIState :=
  let ctx := s.conversationContext ++
    [ "Q: ".toList ++ query ++ " A: ".toList ++ resp]
  if 20 < ctx.length then { s with conversationContext := pyTail 15 ctx }
  else { s with conversationContext := ctx }

/-- `TerminalAI._handle_direct_response`. -/
def handle_direct_response (env : AIEnv) (s : AIState) (query : List Char) :
    List Char × AIState :=
  let memoryContext := get_relevant_context s.mem
  let contextPrompt :=
    if !memoryContext.isEmpty && should_add_memory_context query then
      "Conversation context: ".toList ++ memoryContext ++
        "\nCurrent question: ".toList ++ query
    else query
  let ra := get_ai_response env s contextPrompt
  let resp := enhance_ai_response env ra.2 query ra.1
  let resp := apply_translation ra.2 resp
  let s1 := save_enhanced_memory env query resp ra.2
  (resp, update_conversation_context query resp s1)

/-- `TerminalAI._handle_search_response`. -/
def handle_search_response (env : AIEnv) (s : AIState) (query : List Char) :
    List Char × AIState :=
  let eq := enhance_query_with_location query
  let sr := search_web env s eq.1
  if sr.1.isEmpty || isSubstr ( "error".toList) (pyLower sr.1) then
    handle_direct_response env sr.2 query
  else
    let enhancedPrompt := create_search_prompt query eq.2
    let ra := get_ai_response env sr.2 enhancedPrompt (sr.1.take 1200)
    let resp := enhance_ai_response env ra.2 query ra.1
    let resp := apply_translation ra.2 resp
    let s1 := save_enhanced_memory env query resp ra.2
    (resp, update_conversation_context query resp s1)

/-- `TerminalAI.smart_response`.  The handlers are total on well-shaped
states (each collaborator failure is caught inside them), so the outer
`except` branch that would return `_get_fallback_response(query)` is
unreachable in the model. -/
def smart_response (env : AIEnv) (s : AIState) (query : List Char) :
    List Char × AIState :=
  if needs_search query then handle_search_response env s query
  else handle_direct_response env s query

/-! ### Concrete environments and states used in the theorems -/

/-- Style randomness with every threshold draw failing (no flair added). -/
def styleOff : StyleRand :=
  { flairOn := false, flairPick := 0, humorOn := false, humorPick := 0,
    profOn := false, profPick := 0, energyOn := false, energyPick := 0,
    wiseStartOn := false, wiseStartPick := 0, wiseEndOn := false, wiseEndPick := 0 }

/-- Environment whose backend answers every prompt with `"Hello friend"`
and whose search client raises. -/
def envHello : AIEnv :=
  { ollama := fun _ _ => some ( "Hello friend".toList),
    webSearch := fun _ => none, nowIso := [], sessionId := [], hour := 10, month := 5,
    elapsed := 0, empathyPick := 0, style := styleOff }

/-- Environment whose backend raises on every call (injected failure). -/
def envFail : AIEnv :=
  { ollama := fun _ _ => none,
    webSearch := fun _ => none, nowIso := [], sessionId := [], hour := 10, month := 5,
    elapsed := 0, empathyPick := 0, style := styleOff }

/-- A learned-knowledge item whose stored response is a single space: a
state reachable by loading `ai_learned_knowledge.json`, and truthy for the
Python selection test `if personalized`. -/
def blankLearnedItem : LearnedItem :=
  { response := " ".toList, successCount := 1, timestamp := [] }

/-- Learning store holding the whitespace-only response under key `"zzz"`. -/
def poisonedLearn : LearnState :=
  { initLearnState with learnedKnowledge := [( "zzz".toList, [blankLearnedItem])] }

/-- Fresh orchestrator state except for the poisoned learning store. -/
def poisonedState : AIState := { initAIState with learn := poisonedLearn }

/-- A long-term memory entry used to fill the store to its cap. -/
def fillerConv : ConvItem :=
  { userInput := "u".toList, aiResponse := "r".toList, timestamp := [], importance := 0 }

/-- A long-term store already holding exactly 100 entries. -/
def mem100 : MemState := { initMemState with conversations := List.replicate 100 fillerConv }

/-- A response cache holding 1001 distinct keys `"k0:"`, `"k1:"`, ...
(the key shape `_generate_cache_key` produces for an empty context). -/
def bigCache : List (List Char × List Char) :=
  (List.range 1001).map
    (fun i => ( "k".toList ++ (Nat.repr i).toList ++ ":".toList, "v".toList))

/-- Fresh orchestrator state except for the oversized response cache. -/
def bigState : AIState := { initAIState with responseCache := bigCache }

/-- The state reached by folding `set_personality` over a list of names
from the initial state. -/
def run_set_personality (names : List String) : PState :=
  names.foldl (fun st n => (set_personality n st).2) initPState

/-! ### Lemmas about the string primitives -/

theorem isSubstr_infix_iff (n h : List Char) : isSubstr n h = true ↔ n <:+: h := by
  induction h with
  | nil =>
    simp only [isSubstr, List.isEmpty_iff]
    constructor
    · rintro rfl; exact List.infix_rfl
    · intro hinf; exact List.eq_nil_of_infix_nil hinf
  | cons c t ih =>
    simp only [isSubstr, Bool.or_eq_true, List.isPrefixOf_iff_prefix, ih,
      List.infix_cons_iff]

theorem isSubstr_append_right (n a b : List Char) (h : isSubstr n a = true) :
    isSubstr n (a ++ b) = true := by
  rw [isSubstr_infix_iff] at h ⊢
  exact h.trans (List.prefix_append a b).isInfix

theorem isSubstr_of_suffix (n l : List Char) (h : n <:+ l) : isSubstr n l = true :=
  (isSubstr_infix_iff n l).mpr h.isInfix

theorem anyContains_append_right (ps : List String) (a b : List Char)
    (h : anyContains ps a = true) : anyContains ps (a ++ b) = true := by
  simp only [anyContains, List.any_eq_true] at h ⊢
  obtain ⟨p, hp, hsub⟩ := h
  exact ⟨p, hp, isSubstr_append_right _ _ _ hsub⟩

theorem isPySpace_pyToLower (c : Char) : isPySpace (pyToLower c) = isPySpace c := by
  unfold pyToLower
  split
  · rename_i h
    obtain ⟨h65, h90⟩ := h
    have hv : (c.toNat + 32).isValidChar := Or.inl (by omega)
    have ht : (Char.ofNat (c.toNat + 32)).toNat = c.toNat + 32 := by
      rw [Char.ofNat, dif_pos hv]
      rfl
    have e1 : c.toNat + 32 ≠ 32 := by omega
    have e2 : c.toNat + 32 ≠ 9 := by omega
    have e3 : c.toNat + 32 ≠ 10 := by omega
    have e4 : c.toNat + 32 ≠ 13 := by omega
    have e5 : c.toNat + 32 ≠ 11 := by omega
    have e6 : c.toNat + 32 ≠ 12 := by omega
    have f1 : c.toNat ≠ 32 := by omega
    have f2 : c.toNat ≠ 9 := by omega
    have f3 : c.toNat ≠ 10 := by omega
    have f4 : c.toNat ≠ 13 := by omega
    have f5 : c.toNat ≠ 11 := by omega
    have f6 : c.toNat ≠ 12 := by omega
    simp [isPySpace, ht, e1, e2, e3, e4, e5, e6, f1, f2, f3, f4, f5, f6]
  · rfl

theorem hasNonWs_append (a b : List Char) :
    hasNonWs (a ++ b) = (hasNonWs a || hasNonWs b) := by
  simp [hasNonWs, List.any_append]

theorem hasNonWs_of_mem {c : Char} {l : List Char} (hc : isPySpace c = false)
    (hm : c ∈ l) : hasNonWs l = true := by
  simp only [hasNonWs, List.any_eq_true]
  exact ⟨c, hm, by simp [hc]⟩

theorem exists_of_hasNonWs {l : List Char} (h : hasNonWs l = true) :
    ∃ c ∈ l, isPySpace c = false := by
  simp only [hasNonWs, List.any_eq_true, Bool.not_eq_true'] at h
  exact h

theorem hasNonWs_pyLower (l : List Char) : hasNonWs (pyLower l) = hasNonWs l := by
  simp [hasNonWs, pyLower, List.any_map, Function.comp_def, isPySpace_pyToLower]

theorem mem_dropWhile_of_not {p : Char → Bool} {c : Char} (hc : p c = false) :
    ∀ {l : List Char}, c ∈ l → c ∈ l.dropWhile p := by
  intro l
  induction l with
  | nil => simp
  | cons a t ih =>
    intro h
    rw [List.dropWhile_cons]
    split
    · rename_i hpa
      rcases List.mem_cons.mp h with rfl | ht
      · rw [hpa] at hc; cases hc
      · exact ih ht
    · exact h

theorem hasNonWs_pyStrip (l : List Char) : hasNonWs (pyStrip l) = hasNonWs l := by
  cases hw : hasNonWs l with
  | true =>
    obtain ⟨c, hm, hc⟩ := exists_of_hasNonWs hw
    refine hasNonWs_of_mem hc ?_
    unfold pyStrip
    rw [List.mem_reverse]
    exact mem_dropWhile_of_not hc (List.mem_reverse.mpr (mem_dropWhile_of_not hc hm))
  | false =>
    cases hs : hasNonWs (pyStrip l) with
    | false => rfl
    | true =>
      obtain ⟨c, hm, hc⟩ := exists_of_hasNonWs hs
      have : c ∈ l := by
        have h1 := (List.dropWhile_sublist (l := l) isPySpace).subset
        have h2 := (List.dropWhile_sublist
          (l := (l.dropWhile isPySpace).reverse) isPySpace).subset
        unfold pyStrip at hm
        rw [List.mem_reverse] at hm
        exact h1 (List.mem_reverse.mp (h2 hm))
      rw [hasNonWs_of_mem hc this] at hw
      cases hw

theorem pyStrip_ne_nil_of_hasNonWs {l : List Char} (h : hasNonWs l = true) :
    pyStrip l ≠ [] := by
  intro hnil
  have := hasNonWs_pyStrip l
  rw [hnil, h] at this
  simp [hasNonWs] at this

theorem hasNonWs_of_pyStrip_ne_nil {l : List Char} (h : pyStrip l ≠ []) :
    hasNonWs (pyStrip l) = true := by
  have hne : (l.dropWhile isPySpace).reverse.dropWhile isPySpace ≠ [] := by
    intro hnil
    exact h (by simp [pyStrip, hnil])
  have hc := List.head_dropWhile_not isPySpace (l.dropWhile isPySpace).reverse hne
  refine hasNonWs_of_mem hc ?_
  unfold pyStrip
  rw [List.mem_reverse]
  exact List.head_mem hne

theorem hasNonWs_cons (c : Char) (t : List Char) :
    hasNonWs (c :: t) = (!isPySpace c || hasNonWs t) := by
  simp [hasNonWs]

theorem one_le_length_pyWordsAux_of_acc :
    ∀ (l acc : List Char), acc ≠ [] → 1 ≤ (pyWordsAux acc l).length := by
  intro l
  induction l with
  | nil =>
    intro acc hacc
    simp [pyWordsAux, List.isEmpty_iff, hacc]
  | cons c cs ih =>
    intro acc hacc
    by_cases hsp : isPySpace c = true
    · have : ¬acc.isEmpty = true := by simp [List.isEmpty_iff, hacc]
      simp [pyWordsAux, hsp, this]
    · have hsp' : isPySpace c = false := by simpa using hsp
      simp only [pyWordsAux, hsp']
      exact ih (c :: acc) (by simp)

theorem length_pyWordsAux_le_append :
    ∀ (l acc rest : List Char),
      (pyWordsAux acc l).length ≤ (pyWordsAux acc (l ++ rest)).length := by
  intro l
  induction l with
  | nil =>
    intro acc rest
    by_cases hacc : acc = []
    · subst hacc
      simp [pyWordsAux]
    · have h1 := one_le_length_pyWordsAux_of_acc rest acc hacc
      simp only [pyWordsAux, List.isEmpty_iff, List.nil_append]
      simp [hacc]
      omega
  | cons c cs ih =>
    intro acc rest
    by_cases hsp : isPySpace c = true
    · by_cases hacc : acc.isEmpty = true
      · simpa [pyWordsAux, hsp, hacc] using ih [] rest
      · simpa [pyWordsAux, hsp, hacc] using ih [] rest
    · have hsp' : isPySpace c = false := by simpa using hsp
      simpa only [List.cons_append, pyWordsAux, hsp'] using ih (c :: acc) rest

theorem one_le_length_pyWordsAux_of_hasNonWs :
    ∀ (l acc : List Char), hasNonWs l = true → 1 ≤ (pyWordsAux acc l).length := by
  intro l
  induction l with
  | nil => intro acc h; simp [hasNonWs] at h
  | cons c cs ih =>
    intro acc h
    by_cases hsp : isPySpace c = true
    · have hcs : hasNonWs cs = true := by
        rw [hasNonWs_cons, hsp] at h
        simpa using h
      by_cases hacc : acc.isEmpty = true
      · simpa [pyWordsAux, hsp, hacc] using ih [] hcs
      · simp [pyWordsAux, hsp, hacc]
    · have hsp' : isPySpace c = false := by simpa using hsp
      simp only [pyWordsAux, hsp']
      exact one_le_length_pyWordsAux_of_acc cs (c :: acc) (by simp)

theorem one_le_wordCount_of_hasNonWs {l : List Char} (h : hasNonWs l = true) :
    1 ≤ wordCount l :=
  one_le_length_pyWordsAux_of_hasNonWs l [] h

theorem wordCount_le_append (a rest : List Char) :
    wordCount a ≤ wordCount (a ++ rest) :=
  length_pyWordsAux_le_append a [] rest

theorem hasNonWs_pyReplaceAux (old new : List Char) (hnew : hasNonWs new = true) :
    ∀ (f : Nat) (l : List Char), hasNonWs l = true →
      hasNonWs (pyReplaceAux old new f l) = true := by
  intro f
  induction f with
  | zero =>
    intro l hl
    cases l with
    | nil => simpa [pyReplaceAux] using hl
    | cons c cs => simpa [pyReplaceAux] using hl
  | succ f ih =>
    intro l hl
    cases l with
    | nil => simpa [pyReplaceAux] using hl
    | cons c cs =>
      simp only [pyReplaceAux]
      split
      · rw [hasNonWs_append, hnew]
        rfl
      · rw [hasNonWs_cons]
        rw [hasNonWs_cons] at hl
        cases hc : isPySpace c with
        | false => rfl
        | true =>
          rw [hc] at hl
          simp only [Bool.not_true, Bool.false_or] at hl ⊢
          exact ih cs hl

theorem hasNonWs_pyReplace (old new l : List Char) (hnew : hasNonWs new = true)
    (hl : hasNonWs l = true) : hasNonWs (pyReplace old new l) = true :=
  hasNonWs_pyReplaceAux old new hnew l.length l hl

theorem pyChoice_mem (l : List (List Char)) (i : Nat) (h : l ≠ []) :
    pyChoice l i ∈ l := by
  have hlen : 0 < l.length := List.length_pos.mpr h
  have hmod : i % l.length < l.length := Nat.mod_lt i hlen
  rw [pyChoice, List.getD_eq_getElem l [] hmod]
  exact List.getElem_mem hmod

theorem pyMaxBy_eq_none {α : Type} (f : α → Nat) (l : List α) :
    pyMaxBy f l = none ↔ l = [] := by
  cases l with
  | nil => simp [pyMaxBy]
  | cons x xs =>
    cases hm : pyMaxBy f xs with
    | none => simp [pyMaxBy, hm]
    | some m =>
      simp only [pyMaxBy, hm]
      constructor
      · intro h
        split at h <;> exact Option.noConfusion h
      · intro h
        exact absurd h (List.cons_ne_nil x xs)

theorem pyMaxBy_spec {α : Type} (f : α → Nat) :
    ∀ (l : List α) (x : α), pyMaxBy f l = some x →
      x ∈ l ∧ (∀ y ∈ l, f y ≤ f x) ∧
        ∃ l1 l2, l = l1 ++ x :: l2 ∧ ∀ y ∈ l1, f y < f x := by
  intro l
  induction l with
  | nil => intro x h; simp [pyMaxBy] at h
  | cons a t ih =>
    intro x h
    cases hm : pyMaxBy f t with
    | none =>
      have ht : t = [] := (pyMaxBy_eq_none f t).mp hm
      subst ht
      simp only [pyMaxBy] at h
      cases h
      refine ⟨List.mem_singleton_self _, ?_, [], [], rfl, by simp⟩
      intro y hy
      rw [List.mem_singleton] at hy
      subst hy
      exact le_refl _
    | some m =>
      simp only [pyMaxBy, hm] at h
      obtain ⟨hmem, hmax, l1, l2, heq, hstrict⟩ := ih m hm
      by_cases hlt : f a < f m
      · rw [if_pos hlt] at h
        cases h
        refine ⟨List.mem_cons_of_mem a hmem, ?_, a :: l1, l2, by simp [heq], ?_⟩
        · intro y hy
          rcases List.mem_cons.mp hy with rfl | hyt
          · exact le_of_lt hlt
          · exact hmax y hyt
        · intro y hy
          rcases List.mem_cons.mp hy with rfl | hy1
          · exact hlt
          · exact hstrict y hy1
      · rw [if_neg hlt] at h
        cases h
        push_neg at hlt
        refine ⟨List.mem_cons_self a t, ?_, [], t, rfl, by simp⟩
        intro y hy
        rcases List.mem_cons.mp hy with rfl | hyt
        · exact le_refl _
        · exact le_trans (hmax y hyt) hlt

theorem dictGet_mem {κ α : Type} [DecidableEq κ] (k : κ) (v : α) :
    ∀ l : List (κ × α), dictGet k l = some v → (k, v) ∈ l := by
  intro l
  induction l with
  | nil => intro h; simp [dictGet] at h
  | cons p t ih =>
    intro h
    obtain ⟨k', v'⟩ := p
    simp only [dictGet] at h
    split at h
    · rename_i heq
      cases h
      subst heq
      exact List.mem_cons_self _ _
    · exact List.mem_cons_of_mem _ (ih h)

theorem dictInsert_length_ge {κ α : Type} [DecidableEq κ] (k : κ) (v : α) :
    ∀ l : List (κ × α), l.length ≤ (dictInsert k v l).length := by
  intro l
  induction l with
  | nil => simp [dictInsert]
  | cons p t ih =>
    obtain ⟨k', v'⟩ := p
    simp only [dictInsert]
    split
    · simp
    · simpa using ih

theorem filterMap_eq_append_cons {α β : Type} (f : α → Option β) :
    ∀ (l : List α) (L1 : List β) (x : β) (L2 : List β),
      l.filterMap f = L1 ++ x :: L2 →
        ∃ t1 p t2, l = t1 ++ p :: t2 ∧ f p = some x ∧ t1.filterMap f = L1 := by
  intro l
  induction l with
  | nil =>
    intro L1 x L2 h
    simp only [List.filterMap_nil] at h
    exact absurd h.symm (List.append_ne_nil_of_right_ne_nil _ (by simp))
  | cons a t ih =>
    intro L1 x L2 h
    cases hfa : f a with
    | none =>
      simp only [List.filterMap_cons, hfa] at h
      obtain ⟨t1, p, t2, heq, hfp, hfm⟩ := ih L1 x L2 h
      exact ⟨a :: t1, p, t2, by simp [heq], hfp,
        by rw [List.filterMap_cons, hfa, hfm]⟩
    | some b =>
      simp only [List.filterMap_cons, hfa] at h
      cases L1 with
      | nil =>
        simp only [List.nil_append, List.cons.injEq] at h
        obtain ⟨hbx, -⟩ := h
        exact ⟨[], a, t, rfl, by rw [hfa, hbx], by simp⟩
      | cons c L1' =>
        simp only [List.cons_append, List.cons.injEq] at h
        obtain ⟨hbc, h'⟩ := h
        obtain ⟨t1, p, t2, heq, hfp, hfm⟩ := ih L1' x L2 h'
        exact ⟨a :: t1, p, t2, by simp [heq], hfp,
          by rw [List.filterMap_cons, hfa, hfm, hbc]⟩

theorem pyMin_eq_min (a b : ℚ) : pyMin a b = min a b := by
  rw [pyMin, min_def]

theorem mkRat_confidence_eq (s wc : Nat) :
    (mkRat (s * 10) wc : ℚ) = (s : ℚ) / (wc : ℚ) * 10 := by
  rw [Rat.mkRat_eq_div]
  push_cast
  ring

theorem mkRat_half_eq : (mkRat 1 2 : ℚ) = 1 / 2 := by
  norm_num [Rat.mkRat_eq_div]

/-! ### C7: cache key truncation -/

/-- C7 (confirmed): a prompt+context combination whose lowercased
concatenation `"prompt:context"` exceeds 100 characters yields a cache key
of exactly 100 characters, and any two combinations that agree on the
first 100 characters of that lowercased concatenation produce equal
(colliding) cache keys. -/
theorem generate_cache_key_spec :
    (∀ prompt context : List Char,
        100 < (pyLower (prompt ++ ":".toList ++ context)).length →
        (generate_cache_key prompt context).length = 100) ∧
    (∀ p c p' c' : List Char,
        (pyLower (p ++ ":".toList ++ c)).take 100 =
          (pyLower (p' ++ ":".toList ++ c')).take 100 →
        generate_cache_key p c = generate_cache_key p' c') := by
  constructor
  · intro prompt context h
    rw [generate_cache_key, List.length_take]
    omega
  · intro p c p' c' h
    rw [generate_cache_key, generate_cache_key, h]

/-- Witness for C7: a 121-character combination is truncated to 100
characters, and two combinations differing only beyond character 100
collide. -/
theorem generate_cache_key_spec_witness :
    (100 < (pyLower (List.replicate 120 'a' ++ ":".toList ++ [])).length ∧
      (generate_cache_key (List.replicate 120 'a') []).length = 100) ∧
    ((pyLower (List.replicate 120 'a' ++ ":".toList ++ [])).take 100 =
        (pyLower (List.replicate 120 'a' ++ ":".toList ++ "tail".toList)).take 100 ∧
      generate_cache_key (List.replicate 120 'a') [] =
        generate_cache_key (List.replicate 120 'a') ( "tail".toList)) :=
  ⟨⟨by decide, generate_cache_key_spec.1 (List.replicate 120 'a') [] (by decide)⟩,
    ⟨by decide, generate_cache_key_spec.2 (List.replicate 120 'a') []
      (List.replicate 120 'a') ( "tail".toList) (by decide)⟩⟩

/-! ### C8: rejecting unknown personality names -/

/-- C8 counterexample: `"ENERGETIC"` is not a key of the fixed personality
table, yet `set_personality` accepts it and switches the state (the source
tests the lowercased name against the table), so the claim's universal
statement is false as written. -/
theorem set_personality_uppercase_accepted :
    dictGet ( "ENERGETIC") personalities = none ∧
      set_personality ( "ENERGETIC") initPState = (true, { current := "energetic" }) :=
  ⟨by decide, by decide⟩

/-- C8 (corrected): for every name whose LOWERCASED form is not a key of
the fixed personality table, `set_personality` returns false and leaves
the active personality unchanged (names differing from a key only by case
are accepted); and after `set_personality "energetic"` succeeds,
`set_personality "bogus"` returns false with the personality still
`"energetic"`. -/
theorem set_personality_invalid_name :
    (∀ (name : String) (s : PState),
        dictGet (pyLowerStr name) personalities = none →
        set_personality name s = (false, s)) ∧
      set_personality ( "energetic") initPState = (true, { current := "energetic" }) ∧
      set_personality ( "bogus") { current := "energetic" } =
        (false, { current := "energetic" }) := by
  refine ⟨?_, by decide, by decide⟩
  intro name s h
  simp [set_personality, h]

/-- Witness for C8 at the concrete invalid name `"bogus"`. -/
theorem set_personality_invalid_name_witness :
    dictGet (pyLowerStr ( "bogus")) personalities = none ∧
      set_personality ( "bogus") initPState = (false, initPState) :=
  ⟨by decide, set_personality_invalid_name.1 ( "bogus") initPState (by decide)⟩

/-! ### C1: `needs_search` tier precedence -/

/-- C1 counterexample: a query containing both the immediate-skip phrase
`"hello"` and the priority trigger `"latest"` makes `needs_search` return
false — the skip tier is checked first, contradicting the claim that the
priority trigger forces true. -/
theorem needs_search_hello_latest :
    isSubstr ( "hello".toList) ( "hello, what is the latest news?".toList) = true ∧
      isSubstr ( "latest".toList) ( "hello, what is the latest news?".toList) = true ∧
      needs_search ( "hello, what is the latest news?".toList) = false :=
  ⟨by decide, by decide, by decide⟩

/-- C1 (corrected): immediate-skip phrases take precedence: every query
containing one yields false even when a priority trigger is present; a
priority trigger forces true only when no skip phrase and no command
pattern matches. -/
theorem needs_search_skip_precedence :
    (∀ query : List Char,
        anyContains immediateSkip (pyStrip (pyLower query)) = true →
        needs_search query = false) ∧
    (∀ query : List Char,
        anyContains immediateSkip (pyStrip (pyLower query)) = false →
        anyContains commandPatterns (pyStrip (pyLower query)) = false →
        anyContains priorityTriggers (pyStrip (pyLower query)) = true →
        needs_search query = true) := by
  constructor
  · intro q h
    simp [needs_search, h]
  · intro q h1 h2 h3
    simp [needs_search, h1, h2, h3]

/-- Witness for C1 at a concrete skip-bearing query and a concrete
trigger-only query. -/
theorem needs_search_skip_precedence_witness :
    (anyContains immediateSkip (pyStrip (pyLower ( "hello friend".toList))) = true ∧
      needs_search ( "hello friend".toList) = false) ∧
    (anyContains immediateSkip (pyStrip (pyLower ( "tell me the latest score".toList))) = false ∧
      anyContains commandPatterns (pyStrip (pyLower ( "tell me the latest score".toList))) = false ∧
      anyContains priorityTriggers (pyStrip (pyLower ( "tell me the latest score".toList))) = true ∧
      needs_search ( "tell me the latest score".toList) = true) :=
  ⟨⟨by decide, needs_search_skip_precedence.1 ( "hello friend".toList) (by decide)⟩,
    by decide, by decide, by decide,
    needs_search_skip_precedence.2 ( "tell me the latest score".toList)
      (by decide) (by decide) (by decide)⟩

/-! ### C4: long-term memory retention cap -/

/-- C4 (code_bug): with the long-term store at its 100-entry cap, the
insert `add_to_long_term_memory("my name is", ...)` leaves 101 entries:
`extract_user_info` raises `IndexError` (nothing follows `"my name is"`,
so `split()[0]` indexes an empty list) after the entry is appended and
before the 100-entry trim, and the executor future swallows the
exception — the code's own retention comment promises at most 100. -/
theorem add_to_long_term_memory_overflow :
    mem100.conversations.length = 100 ∧
      nameExtractionRaises ( "my name is".toList) = true ∧
      (add_to_long_term_memory [] ( "my name is".toList) ( "reply".toList)
          mem100).conversations.length = 101 :=
  ⟨by decide, by decide, by decide⟩

/-! ### C9: the active personality is always a table key -/

theorem set_personality_preserves_key (name : String) (s : PState)
    (h : (dictGet s.current personalities).isSome = true) :
    (dictGet ((set_personality name s).2).current personalities).isSome = true := by
  rw [set_personality]
  cases hp : (dictGet (pyLowerStr name) personalities).isSome with
  | true => simp [hp]
  | false => simpa [hp] using h

theorem run_set_personality_key (names : List String) :
    (dictGet (run_set_personality names).current personalities).isSome = true := by
  rw [run_set_personality]
  have base : (dictGet initPState.current personalities).isSome = true := by decide
  generalize initPState = s0 at base ⊢
  induction names generalizing s0 with
  | nil => exact base
  | cons n ns ih =>
    exact ih ((set_personality n s0).2) (set_personality_preserves_key n s0 base)

/-- C9 (confirmed): along every sequence of `set_personality` calls from
the initial state, the active personality remains a key of the fixed
five-entry table (initially `"friendly"`, and each call either rejects the
name or stores its lowercased form, a table key); consequently
`get_current_personality_info` and `apply_personality_to_response` never
fail on a missing-key lookup. -/
theorem personality_key_invariant :
    ∀ names : List String,
      (dictGet (run_set_personality names).current personalities).isSome = true ∧
      (get_current_personality_info (run_set_personality names)).isSome = true ∧
      ∀ (r : StyleRand) (resp : List Char),
        (apply_personality_to_response r (run_set_personality names) resp).isSome = true := by
  intro names
  have hkey := run_set_personality_key names
  obtain ⟨d, hd⟩ := Option.isSome_iff_exists.mp hkey
  refine ⟨hkey, ?_, ?_⟩
  · simp [get_current_personality_info, hd]
  · intro r resp
    simp [apply_personality_to_response, hd]

/-! ### C6: importance is monotone in personal-info phrases -/

theorem ite_le_ite_mono {p q : Prop} [Decidable p] [Decidable q] (k : Nat)
    (h : p → q) : (if p then k else 0) ≤ (if q then k else 0) := by
  by_cases hp : p
  · rw [if_pos hp, if_pos (h hp)]
  · rw [if_neg hp]
    exact Nat.zero_le _

/-- C6 counterexample: for the text `"my name"` (which already contains a
personal-info phrase), appending `" my name"` leaves the importance score
unchanged at 5, refuting the claimed strict increase for every text. -/
theorem calculate_importance_no_strict_increase :
    ¬ (calculate_importance ( "my name".toList) <
        calculate_importance ( "my name".toList ++ ' ' :: ( "my name").toList)) := by
  decide

/-- C6 (corrected): appending a space and a personal-info phrase to a text
whose lowercase does not already contain any personal-info phrase strictly
increases `calculate_importance`; when a phrase is already present the
score need not increase (see the counterexample). -/
theorem calculate_importance_strict_mono :
    ∀ (t : List Char) (p : String),
      p ∈ [ "my name", "i am", "i live", "my age", "my job"] →
      anyContains [ "my name", "i am", "i live", "my age", "my job"] (pyLower t) = false →
      calculate_importance t < calculate_importance (t ++ ' ' :: p.toList) := by
  intro t p hp hnone
  have hfix : pyLower (' ' :: p.toList) = ' ' :: p.toList := by
    simp only [List.mem_cons, List.not_mem_nil, or_false] at hp
    rcases hp with rfl | rfl | rfl | rfl | rfl <;> decide
  have hL : pyLower (t ++ ' ' :: p.toList) = pyLower t ++ ' ' :: p.toList := by
    rw [pyLower, List.map_append]
    congr 1
  have hc1 : anyContains [ "my name", "i am", "i live", "my age", "my job"]
      (pyLower t ++ ' ' :: p.toList) = true := by
    simp only [anyContains, List.any_eq_true]
    refine ⟨p, hp, ?_⟩
    exact isSubstr_of_suffix _ _
      ((List.suffix_cons ' ' p.toList).trans (List.suffix_append (pyLower t) _))
  have m1 := ite_le_ite_mono
    (p := isSubstr ( "?".toList) (pyLower t) = true)
    (q := isSubstr ( "?".toList) (pyLower t ++ ' ' :: p.toList) = true) 2
    (fun h => isSubstr_append_right _ _ _ h)
  have m2 := ite_le_ite_mono
    (p := anyContains [ "love", "hate", "sad", "happy", "angry", "excited"]
      (pyLower t) = true)
    (q := anyContains [ "love", "hate", "sad", "happy", "angry", "excited"]
      (pyLower t ++ ' ' :: p.toList) = true) 3
    (fun h => anyContains_append_right _ _ _ h)
  have m3 := ite_le_ite_mono
    (p := anyContains [ "help", "please", "can you", "need"] (pyLower t) = true)
    (q := anyContains [ "help", "please", "can you", "need"]
      (pyLower t ++ ' ' :: p.toList) = true) 2
    (fun h => anyContains_append_right _ _ _ h)
  have m4 := ite_le_ite_mono
    (p := 10 < wordCount (pyLower t))
    (q := 10 < wordCount (pyLower t ++ ' ' :: p.toList)) 1
    (fun h => lt_of_lt_of_le h (wordCount_le_append _ _))
  simp only [calculate_importance, hL, hnone, hc1]
  simp only [Bool.false_eq_true, if_false, if_true]
  omega

/-- Witness for C6 at the concrete text `"hello there"` and phrase
`"my name"`. -/
theorem calculate_importance_strict_mono_witness :
    ( "my name" ∈ [ "my name", "i am", "i live", "my age", "my job"]) ∧
      anyContains [ "my name", "i am", "i live", "my age", "my job"]
        (pyLower ( "hello there".toList)) = false ∧
      calculate_importance ( "hello there".toList) <
        calculate_importance ( "hello there".toList ++ ' ' :: ( "my name").toList) :=
  ⟨by decide, by decide,
    calculate_importance_strict_mono ( "hello there".toList) ( "my name")
      (by decide) (by decide)⟩

/-! ### C10 and C5: the emotion classifier -/

theorem hasNonWs_of_kwScore_pos {text : List Char} {p : String × List String}
    (hp : p ∈ emotionKeywords) (hs : 0 < kwScore (pyLower text) p.2) :
    hasNonWs text = true := by
  rw [kwScore] at hs
  obtain ⟨k, hk⟩ := List.exists_mem_of_ne_nil _ (List.length_pos.mp hs)
  have hkmem : k ∈ p.2 := (List.mem_filter.mp hk).1
  have hksub : isSubstr k.toList (pyLower text) = true := by
    simpa using (List.mem_filter.mp hk).2
  have hknw : hasNonWs k.toList = true := by
    have hall : ∀ q ∈ emotionKeywords, ∀ k ∈ q.2, hasNonWs (String.toList k) = true := by
      decide
    exact hall p hp k hkmem
  obtain ⟨c, hck, hc⟩ := exists_of_hasNonWs hknw
  have hcl : c ∈ pyLower text := ((isSubstr_infix_iff _ _).mp hksub).subset hck
  have := hasNonWs_of_mem hc hcl
  rwa [hasNonWs_pyLower] at this

/-- C10 (confirmed): `detect_emotion` is total on every input — the
division `score / word_count` is only reached when some keyword occurred
as a substring, which forces at least one whitespace-separated word in the
text (no division by zero), and the returned confidence always lies in
`[0, 1]`. -/
theorem detect_emotion_safe :
    ∀ text : List Char,
      ((∃ p ∈ emotionKeywords, 0 < kwScore (pyLower text) p.2) → 1 ≤ wordCount text) ∧
      0 ≤ (detect_emotion text).2 ∧ (detect_emotion text).2 ≤ 1 := by
  intro text
  constructor
  · rintro ⟨p, hp, hs⟩
    exact one_le_wordCount_of_hasNonWs (hasNonWs_of_kwScore_pos hp hs)
  · rcases hm : pyMaxBy Prod.snd (emotionScores (pyLower text)) with _ | ⟨e, sv⟩
    · simp only [detect_emotion, hm, mkRat_half_eq]
      norm_num
    · simp only [detect_emotion, hm, pyMin_eq_min, mkRat_confidence_eq]
      constructor
      · exact le_min (by positivity) (by norm_num)
      · exact min_le_right _ _

/-- Witness for C10 at the concrete text `"happy day"`. -/
theorem detect_emotion_safe_witness :
    (∃ p ∈ emotionKeywords, 0 < kwScore (pyLower ( "happy day".toList)) p.2) ∧
      1 ≤ wordCount ( "happy day".toList) :=
  ⟨by decide, (detect_emotion_safe ( "happy day".toList)).1 (by decide)⟩

/-- C5 (confirmed): `detect_emotion` returns `("neutral", 0.5)` when no
category scores above 0; otherwise it returns the category with the
maximum keyword-occurrence score, with ties broken by the enumeration
order of the category table (every strictly earlier category scores
strictly less), together with confidence
`min(1.0, score / word_count * 10)`. -/
theorem detect_emotion_spec :
    ∀ text : List Char,
      ((∀ p ∈ emotionKeywords, kwScore (pyLower text) p.2 = 0) →
        detect_emotion text = ( "neutral", 1 / 2)) ∧
      ((∃ p ∈ emotionKeywords, 0 < kwScore (pyLower text) p.2) →
        ∃ pre kws post,
          emotionKeywords = pre ++ ((detect_emotion text).1, kws) :: post ∧
          (∀ q ∈ emotionKeywords,
            kwScore (pyLower text) q.2 ≤ kwScore (pyLower text) kws) ∧
          (∀ q ∈ pre, kwScore (pyLower text) q.2 < kwScore (pyLower text) kws) ∧
          (detect_emotion text).2 =
            min ((kwScore (pyLower text) kws : ℚ) / (wordCount text : ℚ) * 10) 1) := by
  intro text
  constructor
  · intro h
    have hsc : emotionScores (pyLower text) = [] := by
      rw [emotionScores, List.filterMap_eq_nil_iff]
      intro q hq
      simp [h q hq]
    simp [detect_emotion, hsc, pyMaxBy, mkRat_half_eq]
  · rintro ⟨p, hp, hs⟩
    have hne : emotionScores (pyLower text) ≠ [] := by
      intro hnil
      rw [emotionScores, List.filterMap_eq_nil_iff] at hnil
      have := hnil p hp
      rw [if_pos hs] at this
      exact Option.noConfusion this
    rcases hm : pyMaxBy Prod.snd (emotionScores (pyLower text)) with _ | ⟨e, sv⟩
    · exact absurd ((pyMaxBy_eq_none _ _).mp hm) hne
    · obtain ⟨hmem, hmax, L1, L2, heq, hstrict⟩ := pyMaxBy_spec _ _ _ hm
      rw [emotionScores] at heq
      obtain ⟨t1, q0, t2, htab, hfq, hfm⟩ :=
        filterMap_eq_append_cons _ emotionKeywords L1 (e, sv) L2 heq
      by_cases hq0 : 0 < kwScore (pyLower text) q0.2
      swap
      · rw [if_neg hq0] at hfq
        exact Option.noConfusion hfq
      rw [if_pos hq0] at hfq
      have hpair := Option.some.inj hfq
      have h1e : q0.1 = e := congrArg Prod.fst hpair
      have h2s : kwScore (pyLower text) q0.2 = sv := congrArg Prod.snd hpair
      have hdet1 : (detect_emotion text).1 = e := by
        simp [detect_emotion, hm]
      refine ⟨t1, q0.2, t2, ?_, ?_, ?_, ?_⟩
      · rw [hdet1, ← h1e]
        exact htab
      · intro q hq
        by_cases hqs : 0 < kwScore (pyLower text) q.2
        · have hqmem : (q.1, kwScore (pyLower text) q.2) ∈ emotionScores (pyLower text) := by
            rw [emotionScores, List.mem_filterMap]
            exact ⟨q, hq, by rw [if_pos hqs]⟩
          have hle := hmax _ hqmem
          simpa [h2s] using hle
        · rw [Nat.eq_zero_of_not_pos hqs]
          exact Nat.zero_le _
      · intro q hq
        by_cases hqs : 0 < kwScore (pyLower text) q.2
        · have hqmem : (q.1, kwScore (pyLower text) q.2) ∈ L1 := by
            rw [← hfm, List.mem_filterMap]
            exact ⟨q, hq, by rw [if_pos hqs]⟩
          have hlt := hstrict _ hqmem
          simpa [h2s] using hlt
        · rw [Nat.eq_zero_of_not_pos hqs, h2s]
          exact h2s ▸ hq0
      · have hdet2 : (detect_emotion text).2 =
            pyMin (mkRat (sv * 10) (wordCount text)) 1 := by
          simp [detect_emotion, hm]
        rw [hdet2, pyMin_eq_min, mkRat_confidence_eq, ← h2s]

/-- Witness for C5 at the concrete texts `"qqq"` (no keyword matches) and
`"happy day"`. -/
theorem detect_emotion_spec_witness :
    ((∀ p ∈ emotionKeywords, kwScore (pyLower ( "qqq".toList)) p.2 = 0) ∧
      detect_emotion ( "qqq".toList) = ( "neutral", 1 / 2)) ∧
    (∃ p ∈ emotionKeywords, 0 < kwScore (pyLower ( "happy day".toList)) p.2) ∧
      ∃ pre kws post,
        emotionKeywords = pre ++ ((detect_emotion ( "happy day".toList)).1, kws) :: post ∧
        (∀ q ∈ emotionKeywords,
          kwScore (pyLower ( "happy day".toList)) q.2 ≤
            kwScore (pyLower ( "happy day".toList)) kws) ∧
        (∀ q ∈ pre, kwScore (pyLower ( "happy day".toList)) q.2 <
          kwScore (pyLower ( "happy day".toList)) kws) ∧
        (detect_emotion ( "happy day".toList)).2 =
          min ((kwScore (pyLower ( "happy day".toList)) kws : ℚ) /
            (wordCount ( "happy day".toList) : ℚ) * 10) 1 :=
  ⟨⟨by decide, (detect_emotion_spec ( "qqq".toList)).1 (by decide)⟩,
    by decide, (detect_emotion_spec ( "happy day".toList)).2 (by decide)⟩

/-! ### C3: cache cleanup behaviour -/

theorem update_response_time_frame (rt : ℚ) (s : AIState) :
    (update_response_time rt s).responseCache = s.responseCache ∧
    (update_response_time rt s).searchCache = s.searchCache ∧
    (update_response_time rt s).learn = s.learn ∧
    (update_response_time rt s).mem = s.mem ∧
    (update_response_time rt s).pers = s.pers := by
  unfold update_response_time
  split <;> exact ⟨rfl, rfl, rfl, rfl, rfl⟩

theorem get_ai_response_frame (env : AIEnv) (s : AIState) (prompt context : List Char) :
    ((get_ai_response env s prompt context).2).searchCache = s.searchCache ∧
    ((get_ai_response env s prompt context).2).learn = s.learn ∧
    ((get_ai_response env s prompt context).2).mem = s.mem ∧
    ((get_ai_response env s prompt context).2).pers = s.pers ∧
    s.responseCache.length ≤ ((get_ai_response env s prompt context).2).responseCache.length := by
  simp only [get_ai_response]
  split
  · exact ⟨rfl, rfl, rfl, rfl, le_refl _⟩
  · split
    · exact ⟨rfl, rfl, rfl, rfl, le_refl _⟩
    · split
      · split
        · rename_i resp hresp hne
          obtain ⟨h1, h2, h3, h4, h5⟩ := update_response_time_frame env.elapsed
            ({ s with
               totalQueries := s.totalQueries + 1,
               responseCache := dictInsert (generate_cache_key prompt context) resp s.responseCache })
          refine ⟨h2, h3, h4, h5, ?_⟩
          rw [h1]
          exact dictInsert_length_ge _ _ _
        · exact ⟨rfl, rfl, rfl, rfl, le_refl _⟩
      · exact ⟨rfl, rfl, rfl, rfl, le_refl _⟩

theorem search_web_frame (env : AIEnv) (s : AIState) (query : List Char) :
    ((search_web env s query).2).responseCache = s.responseCache ∧
    ((search_web env s query).2).learn = s.learn ∧
    ((search_web env s query).2).mem = s.mem ∧
    ((search_web env s query).2).pers = s.pers ∧
    s.searchCache.length ≤ ((search_web env s query).2).searchCache.length := by
  simp only [search_web]
  split
  · exact ⟨rfl, rfl, rfl, rfl, le_refl _⟩
  · split
    · exact ⟨rfl, rfl, rfl, rfl, le_refl _⟩
    · rename_i result hres
      split
      · rename_i hcacheable
        obtain ⟨h1, h2, h3, h4, h5⟩ := update_response_time_frame env.elapsed
          ({ s with
             searchRequests := s.searchRequests + 1,
             searchCache := dictInsert ((pyLower (clean_search_query query)).take 100) result s.searchCache })
        exact ⟨h1, h3, h4, h5, h2 ▸ dictInsert_length_ge _ _ _⟩
      · obtain ⟨h1, h2, h3, h4, h5⟩ := update_response_time_frame env.elapsed
          ({ s with searchRequests := s.searchRequests + 1 })
        exact ⟨h1, h3, h4, h5, le_of_eq (congrArg List.length h2.symm)⟩

set_option maxRecDepth 40000 in
/-- C3 counterexample: a cache-touching call (a `get_ai_response` cache
hit) on a response cache holding 1001 entries leaves all 1001 entries in
place: no TTL clearing and no size trimming happens on cache-touching
calls, so the entry count stays above 1000 across the call. -/
theorem response_cache_stays_oversized :
    bigState.responseCache.length = 1001 ∧
      ((get_ai_response envHello bigState ( "k0".toList) []).2).responseCache.length = 1001 :=
  ⟨by decide, by decide⟩

/-- C3 (corrected): cache cleanup lives only in `_clear_old_cache`, which
is invoked during initialization rather than on cache-touching calls;
there, both caches are cleared wholesale when the wall-clock age since the
last clear exceeds 3600 seconds, and otherwise only the response cache is
trimmed — to its newest 500 entries — when its count exceeds 1000 (the
search cache is never size-trimmed).  `get_ai_response` and `search_web`
never shrink either cache, so a count above 1000 persists across
cache-touching calls. -/
theorem clear_old_cache_spec :
    (∀ (now : ℚ) (s : AIState), 3600 < now - s.lastClear →
        (clear_old_cache now s).responseCache = [] ∧
        (clear_old_cache now s).searchCache = []) ∧
    (∀ (now : ℚ) (s : AIState), ¬ 3600 < now - s.lastClear →
        (clear_old_cache now s).searchCache = s.searchCache ∧
        (1000 < s.responseCache.length →
          (clear_old_cache now s).responseCache.length = 500) ∧
        (s.responseCache.length ≤ 1000 →
          (clear_old_cache now s).responseCache = s.responseCache)) ∧
    (∀ (env : AIEnv) (s : AIState) (prompt context : List Char),
        s.responseCache.length ≤
          ((get_ai_response env s prompt context).2).responseCache.length ∧
        ((get_ai_response env s prompt context).2).searchCache = s.searchCache) ∧
    (∀ (env : AIEnv) (s : AIState) (query : List Char),
        s.searchCache.length ≤ ((search_web env s query).2).searchCache.length ∧
        ((search_web env s query).2).responseCache = s.responseCache) := by
  refine ⟨?_, ?_, ?_, ?_⟩
  · intro now s h
    simp [clear_old_cache, h]
  · intro now s h
    refine ⟨?_, ?_, ?_⟩
    · rw [clear_old_cache, if_neg h]
      split <;> rfl
    · intro hlen
      simp only [clear_old_cache, if_neg h, if_pos hlen]
      simp [pyTail, List.length_drop]
      omega
    · intro hlen
      have : ¬ 1000 < s.responseCache.length := by omega
      simp [clear_old_cache, if_neg h, this]
  · intro env s prompt context
    obtain ⟨h1, _, _, _, h5⟩ := get_ai_response_frame env s prompt context
    exact ⟨h5, h1⟩
  · intro env s query
    obtain ⟨h1, _, _, _, h5⟩ := search_web_frame env s query
    exact ⟨h5, h1⟩

set_option maxRecDepth 40000 in
/-- Witness for C3: a TTL-expired clear on the initial state empties both
caches, and a fresh-but-oversized response cache is trimmed to 500. -/
theorem clear_old_cache_spec_witness :
    ((3600 < (4000 : ℚ) - initAIState.lastClear) ∧
      (clear_old_cache 4000 initAIState).responseCache = [] ∧
      (clear_old_cache 4000 initAIState).searchCache = []) ∧
    ((¬ 3600 < (10 : ℚ) - bigState.lastClear) ∧
      1000 < bigState.responseCache.length ∧
      (clear_old_cache 10 bigState).responseCache.length = 500) :=
  ⟨⟨by norm_num [initAIState],
      clear_old_cache_spec.1 4000 initAIState (by norm_num [initAIState])⟩,
    ⟨by norm_num [bigState, initAIState], by decide,
      (clear_old_cache_spec.2.1 10 bigState
        (by norm_num [bigState, initAIState])).2.1 (by decide)⟩⟩

/-! ### C2: the orchestrator's response is non-empty -/

theorem ne_nil_of_hasNonWs {l : List Char} (h : hasNonWs l = true) : l ≠ [] := by
  intro hnil
  subst hnil
  simp [hasNonWs] at h

theorem hasNonWs_append_left {a : List Char} (b : List Char)
    (h : hasNonWs a = true) : hasNonWs (a ++ b) = true := by
  rw [hasNonWs_append, h]
  rfl

theorem hasNonWs_append_right' {b : List Char} (a : List Char)
    (h : hasNonWs b = true) : hasNonWs (a ++ b) = true := by
  rw [hasNonWs_append, h]
  simp

theorem get_fallback_response_nonws (prompt : List Char) :
    hasNonWs (get_fallback_response prompt) = true := by
  simp only [get_fallback_response]
  cases hf : List.find? (fun p => isSubstr p.1.toList (pyStrip (pyLower prompt)))
      fallbackResponses with
  | none => decide
  | some p =>
    have hmem := List.mem_of_find?_eq_some hf
    have hall : ∀ q ∈ fallbackResponses, hasNonWs q.2.toList = true := by decide
    exact hall p hmem

theorem get_empathetic_response_nonws (emotion : String) (pick : Nat) :
    hasNonWs (get_empathetic_response emotion pick) = true := by
  rw [get_empathetic_response]
  cases hd : dictGet emotion empathyResponses with
  | none =>
    show hasNonWs ( "I\x27m here to help you with whatever you need.".toList) = true
    decide
  | some rs =>
    have hmem := dictGet_mem emotion rs empathyResponses hd
    have hne : rs.map String.toList ≠ [] := by
      have hnn : ∀ kv ∈ empathyResponses, kv.2 ≠ [] := by decide
      simp only [ne_eq, List.map_eq_nil_iff]
      exact hnn (emotion, rs) hmem
    have hch := pyChoice_mem (rs.map String.toList) pick hne
    have hall : ∀ kv ∈ empathyResponses, ∀ r ∈ kv.2.map String.toList,
        hasNonWs r = true := by decide
    exact hall (emotion, rs) hmem _ hch

theorem add_humor_nonws (r : StyleRand) (resp : List Char)
    (h : hasNonWs resp = true) : hasNonWs (add_humor r resp) = true := by
  simp only [add_humor]
  refine hasNonWs_pyReplace _ _ _ (by decide) ?_
  refine hasNonWs_pyReplace _ _ _ (by decide) ?_
  split
  · exact hasNonWs_append_left _ h
  · exact h

theorem make_professional_nonws (r : StyleRand) (resp : List Char)
    (h : hasNonWs resp = true) : hasNonWs (make_professional r resp) = true := by
  simp only [make_professional]
  have hrep : hasNonWs (pyReplace ( "really".toList) ( "particularly".toList)
      (pyReplace ( "pretty good".toList) ( "quite effective".toList)
        (pyReplace ( "I think".toList) ( "I believe".toList) resp))) = true :=
    hasNonWs_pyReplace _ _ _ (by decide)
      (hasNonWs_pyReplace _ _ _ (by decide)
        (hasNonWs_pyReplace _ _ _ (by decide) h))
  split
  · refine hasNonWs_append_right' _ ?_
    rw [hasNonWs_pyLower]
    exact hrep
  · exact hrep

theorem add_energy_nonws (r : StyleRand) (resp : List Char)
    (h : hasNonWs resp = true) : hasNonWs (add_energy r resp) = true := by
  simp only [add_energy]
  have h1 : ∀ x : List Char, hasNonWs x = true →
      hasNonWs (pyReplace ( "I can".toList) ( "I\x27d LOVE to".toList)
        (pyReplace ( "yes".toList) ( "ABSOLUTELY YES".toList)
          (pyReplace ( "good".toList) ( "AWESOME".toList) x))) = true := by
    intro x hx
    exact hasNonWs_pyReplace _ _ _ (by decide)
      (hasNonWs_pyReplace _ _ _ (by decide)
        (hasNonWs_pyReplace _ _ _ (by decide) hx))
  have h0 : hasNonWs (if (!(pyEndsWith ( "!".toList) resp ||
      pyEndsWith ( "?".toList) resp || pyEndsWith ( ".".toList) resp)) = true
      then resp ++ "!".toList else resp) = true := by
    split
    · exact hasNonWs_append_left _ h
    · exact h
  split
  · exact hasNonWs_append_left _ (h1 _ h0)
  · exact h1 _ h0

theorem add_wisdom_nonws (r : StyleRand) (resp : List Char)
    (h : hasNonWs resp = true) : hasNonWs (add_wisdom r resp) = true := by
  simp only [add_wisdom]
  have h0 : hasNonWs (if r.wiseStartOn = true then
      pyChoice (wiseStarters.map String.toList) r.wiseStartPick ++ pyLower resp
      else resp) = true := by
    split
    · refine hasNonWs_append_right' _ ?_
      rw [hasNonWs_pyLower]
      exact h
    · exact h
  split
  · exact hasNonWs_append_left _ h0
  · exact h0

theorem apply_personality_to_response_nonws (r : StyleRand) (ps : PState)
    (resp out : List Char) (h : hasNonWs resp = true)
    (hout : apply_personality_to_response r ps resp = some out) :
    hasNonWs out = true := by
  cases hd : dictGet ps.current personalities with
  | none =>
    rw [apply_personality_to_response, hd] at hout
    exact Option.noConfusion hout
  | some d =>
    simp only [apply_personality_to_response, hd] at hout
    have hbig := Option.some.inj hout
    subst hbig
    have hR1 : hasNonWs (if r.flairOn = true then
        pyChoice (d.speechPatterns.map String.toList) r.flairPick ++
          " ".toList ++ resp else resp) = true := by
      split
      · exact hasNonWs_append_right' _ h
      · exact h
    split
    · exact add_humor_nonws _ _ hR1
    · split
      · exact make_professional_nonws _ _ hR1
      · split
        · exact add_energy_nonws _ _ hR1
        · split
          · exact add_wisdom_nonws _ _ hR1
          · exact hR1

theorem check_logical_consistency_nonws (q resp : List Char)
    (h : hasNonWs resp = true) :
    hasNonWs (check_logical_consistency q resp) = true := by
  simp only [check_logical_consistency]
  split
  · exact hasNonWs_append_right' _ h
  · split
    · refine hasNonWs_append_left _ ?_
      decide
    · exact h

theorem add_practical_context_nonws (q resp : List Char)
    (h : hasNonWs resp = true) :
    hasNonWs (add_practical_context q resp) = true := by
  simp only [add_practical_context]
  have h1 : ∀ x : List Char, hasNonWs x = true → hasNonWs
      (if anyContains [ "rain", "cold", "hot", "snow"] (pyLower q) = true then
        if isSubstr ( "rain".toList) (pyLower q) = true then
          x ++ " By the way, if it\x27s raining, don\x27t forget an umbrella!".toList
        else if isSubstr ( "cold".toList) (pyLower q) = true then
          x ++ " In cold weather, make sure to dress warmly.".toList
        else if isSubstr ( "hot".toList) (pyLower q) = true then
          x ++ " In hot weather, stay hydrated and seek shade.".toList
        else x
      else x) = true := by
    intro x hx
    split
    · split
      · exact hasNonWs_append_left _ hx
      · split
        · exact hasNonWs_append_left _ hx
        · split
          · exact hasNonWs_append_left _ hx
          · exact hx
    · exact hx
  have h2 : ∀ x : List Char, hasNonWs x = true → hasNonWs
      (if anyContains [ "drive", "driving", "car"] (pyLower q) = true then
        x ++ " Remember to always drive safely and follow traffic rules.".toList
      else x) = true := by
    intro x hx
    split
    · exact hasNonWs_append_left _ hx
    · exact hx
  have h3 : ∀ x : List Char, hasNonWs x = true → hasNonWs
      (if anyContains [ "sick", "illness", "pain", "hurt"] (pyLower q) = true then
        x ++ " If you\x27re experiencing health issues, it\x27s best to consult with a healthcare professional.".toList
      else x) = true := by
    intro x hx
    split
    · exact hasNonWs_append_left _ hx
    · exact hx
  split
  · exact hasNonWs_append_left _ (h3 _ (h2 _ (h1 _ h)))
  · exact h3 _ (h2 _ (h1 _ h))

theorem apply_safety_filter_nonws (resp : List Char) (h : hasNonWs resp = true) :
    hasNonWs (apply_safety_filter resp) = true := by
  simp only [apply_safety_filter]
  split
  · exact hasNonWs_append_left _ (hasNonWs_append_right' _ h)
  · exact h

theorem add_contextual_awareness_nonws (hour month : Nat) (q resp : List Char)
    (h : hasNonWs resp = true) :
    hasNonWs (add_contextual_awareness hour month q resp) = true := by
  simp only [add_contextual_awareness]
  have h0 : ∀ x : List Char, hasNonWs x = true → hasNonWs
      (if (isSubstr ( "good morning".toList) (pyLower q) && decide (12 < hour)) = true then
        "Actually, it\x27s afternoon now, but good day to you too! ".toList ++ x
      else if (isSubstr ( "good evening".toList) (pyLower q) && decide (hour < 17)) = true then
        "It\x27s still daytime, but good day! ".toList ++ x
      else x) = true := by
    intro x hx
    split
    · exact hasNonWs_append_right' _ hx
    · split
      · exact hasNonWs_append_right' _ hx
      · exact hx
  split
  · exact hasNonWs_append_right' _ (h0 _ h)
  · split
    · exact hasNonWs_append_right' _ (h0 _ h)
    · exact h0 _ h

theorem enhance_with_common_sense_nonws (hour month : Nat) (q resp : List Char)
    (h : hasNonWs resp = true) :
    hasNonWs (enhance_with_common_sense hour month q resp) = true := by
  simp only [enhance_with_common_sense]
  exact add_contextual_awareness_nonws _ _ _ _
    (apply_safety_filter_nonws _
      (add_practical_context_nonws _ _
        (check_logical_consistency_nonws _ _ h)))

theorem get_contextual_response_nonws (ls : LearnState) (input : List Char) :
    hasNonWs (get_contextual_response ls input) = true := by
  cases hd : dictGet (classify_input_type input) ls.patterns with
  | none =>
    simp only [get_contextual_response, hd]
    decide
  | some bucket =>
    cases hl : bucket.getLast? with
    | none =>
      simp only [get_contextual_response, hd, hl]
      decide
    | some recent =>
      simp only [get_contextual_response, hd, hl]
      exact hasNonWs_append_left _ (by decide)

theorem get_personalized_response_nonws (ls : LearnState) (input p : List Char)
    (hyp : ∀ kv ∈ ls.learnedKnowledge, ∀ it ∈ kv.2, hasNonWs it.response = true)
    (h : get_personalized_response ls input = Except.ok (some p)) :
    hasNonWs p = true := by
  cases hd : dictGet ((pyLower input).take 50) ls.learnedKnowledge with
  | some bucket =>
    simp only [get_personalized_response, hd] at h
    cases hb : pyMaxBy LearnedItem.successCount bucket with
    | none =>
      rw [hb] at h
      exact Except.noConfusion h
    | some best =>
      rw [hb] at h
      have hpb : p = best.response := by
        have := Except.ok.inj h
        exact (Option.some.inj this).symm
      rw [hpb]
      have hbm := (pyMaxBy_spec _ _ _ hb).1
      exact hyp _ (dictGet_mem _ _ _ hd) _ hbm
  | none =>
    simp only [get_personalized_response, hd] at h
    cases hn : ls.prefName with
    | none =>
      rw [hn] at h
      have := Except.ok.inj h
      exact Option.noConfusion this
    | some n =>
      rw [hn] at h
      have := Except.ok.inj h
      have hp := Option.some.inj this
      rw [← hp]
      exact hasNonWs_append_right' _ (get_contextual_response_nonws ls input)

theorem get_ai_response_nonws (env : AIEnv) (s : AIState) (prompt context : List Char)
    (hyp : ∀ kv ∈ s.responseCache, hasNonWs kv.2 = true) :
    hasNonWs ((get_ai_response env s prompt context).1) = true := by
  simp only [get_ai_response]
  split
  · rename_i v hv
    exact hyp _ (dictGet_mem _ _ _ hv)
  · split
    · exact get_fallback_response_nonws _
    · split
      · rename_i resp hco
        split
        · rename_i hne
          rw [call_ollama_with_timeout] at hco
          obtain ⟨content, hcon, hstrip⟩ := Option.map_eq_some'.mp hco
          rw [← hstrip]
          apply hasNonWs_of_pyStrip_ne_nil
          rw [hstrip]
          simpa [List.isEmpty_iff] using hne
        · exact get_fallback_response_nonws _
      · exact get_fallback_response_nonws _

theorem enhance_ai_response_nonws (env : AIEnv) (s : AIState) (query raw : List Char)
    (hyp : ∀ kv ∈ s.learn.learnedKnowledge, ∀ it ∈ kv.2, hasNonWs it.response = true)
    (hraw : hasNonWs raw = true) :
    hasNonWs (enhance_ai_response env s query raw) = true := by
  simp only [enhance_ai_response]
  have hR1 : hasNonWs (if mkRat 85 100 < (detect_emotion query).2 then
      get_empathetic_response (detect_emotion query).1 env.empathyPick ++
        " ".toList ++ raw else raw) = true := by
    split
    · exact hasNonWs_append_right' _ hraw
    · exact hraw
  split
  · exact hR1
  · rename_i r2 hap
    have h2 : hasNonWs r2 = true :=
      apply_personality_to_response_nonws env.style s.pers _ r2 hR1 hap
    set R3 := (if needs_common_sense_check query r2 = true then
      enhance_with_common_sense env.hour env.month query r2 else r2) with hg3
    have h3 : hasNonWs R3 = true := by
      rw [hg3]
      split
      · exact enhance_with_common_sense_nonws _ _ _ _ h2
      · exact h2
    set R4 := (if (should_add_memory_context query &&
        !(get_relevant_context s.mem).isEmpty) = true then
      "Based on our conversation, ".toList ++ R3 else R3) with hg4
    have h4 : hasNonWs R4 = true := by
      rw [hg4]
      split
      · exact hasNonWs_append_right' _ h3
      · exact h3
    split
    · exact hR1
    · rename_i pers hpr
      rw [hasNonWs_pyStrip]
      cases pers with
      | none => exact h4
      | some p =>
        show hasNonWs (if (!p.isEmpty && decide (p.length < R4.length)) = true
          then p else R4) = true
        split
        · exact get_personalized_response_nonws s.learn query p hyp hpr
        · exact h4

theorem apply_translation_eq (s : AIState) (r : List Char) :
    apply_translation s r = r := by
  rw [apply_translation]
  split <;> rfl

theorem response_pipeline_nonws (env : AIEnv) (s : AIState)
    (query prompt context : List Char)
    (hypC : ∀ kv ∈ s.responseCache, hasNonWs kv.2 = true)
    (hypL : ∀ kv ∈ s.learn.learnedKnowledge, ∀ it ∈ kv.2, hasNonWs it.response = true) :
    hasNonWs (enhance_ai_response env (get_ai_response env s prompt context).2 query
      (get_ai_response env s prompt context).1) = true := by
  have hraw := get_ai_response_nonws env s prompt context hypC
  have hlearn := (get_ai_response_frame env s prompt context).2.1
  refine enhance_ai_response_nonws env _ query _ ?_ hraw
  rw [hlearn]
  exact hypL

theorem handle_direct_response_nonws (env : AIEnv) (s : AIState) (query : List Char)
    (hypC : ∀ kv ∈ s.responseCache, hasNonWs kv.2 = true)
    (hypL : ∀ kv ∈ s.learn.learnedKnowledge, ∀ it ∈ kv.2, hasNonWs it.response = true) :
    hasNonWs ((handle_direct_response env s query).1) = true := by
  simp only [handle_direct_response]
  rw [apply_translation_eq]
  exact response_pipeline_nonws env s query _ _ hypC hypL

theorem handle_search_response_nonws (env : AIEnv) (s : AIState) (query : List Char)
    (hypC : ∀ kv ∈ s.responseCache, hasNonWs kv.2 = true)
    (hypL : ∀ kv ∈ s.learn.learnedKnowledge, ∀ it ∈ kv.2, hasNonWs it.response = true) :
    hasNonWs ((handle_search_response env s query).1) = true := by
  simp only [handle_search_response]
  split
  · refine handle_direct_response_nonws env _ query ?_ ?_
    · rw [(search_web_frame env s _).1]
      exact hypC
    · rw [(search_web_frame env s _).2.1]
      exact hypL
  · rw [apply_translation_eq]
    refine response_pipeline_nonws env _ query _ _ ?_ ?_
    · rw [(search_web_frame env s _).1]
      exact hypC
    · rw [(search_web_frame env s _).2.1]
      exact hypL

/-- C2 counterexample: with a backend answering `"Hello friend"` and a
stored learned response consisting of a single space under the key
`"zzz"`, `smart_response "zzz"` returns the empty string — the enhancement
pipeline replaces the response by the shorter stored response `" "` and
the final `strip()` empties it, so the non-emptiness contract fails
without a well-formedness condition on the learned store. -/
theorem smart_response_empty_output :
    (smart_response envHello poisonedState ( "zzz".toList)).1 = [] := by
  decide

/-- C2 (corrected): for every query, environment, and well-formed state —
one whose cached responses and stored learned responses each contain a
non-whitespace character — `smart_response` returns a non-empty text
string; every collaborator failure is caught inside the call (a backend
failure is replaced by the fixed fallback table, an enhancement failure by
the unenhanced response), never propagated.  Without the well-formedness
condition the empty string is reachable (see the counterexample). -/
theorem smart_response_nonempty :
    (∀ (env : AIEnv) (s : AIState) (query : List Char),
      (∀ kv ∈ s.responseCache, hasNonWs kv.2 = true) →
      (∀ kv ∈ s.learn.learnedKnowledge, ∀ it ∈ kv.2, hasNonWs it.response = true) →
      (smart_response env s query).1 ≠ []) ∧
    (∀ (env : AIEnv) (s : AIState) (prompt context : List Char),
      (∀ a b, env.ollama a b = none) →
      dictGet (generate_cache_key prompt context) s.responseCache = none →
      (get_ai_response env s prompt context).1 = get_fallback_response prompt) := by
  constructor
  · intro env s query hypC hypL
    refine ne_nil_of_hasNonWs ?_
    rw [smart_response]
    split
    · exact handle_search_response_nonws env s query hypC hypL
    · exact handle_direct_response_nonws env s query hypC hypL
  · intro env s prompt context hollama hmiss
    simp only [get_ai_response, hmiss]
    cases hsp : get_system_prompt
        ({ s with totalQueries := s.totalQueries + 1 }) with
    | none => rfl
    | some sys => simp [call_ollama_with_timeout, hollama]

/-- Witness for C2: on the fresh state (empty caches and stores) the
response to `"hi there"` is non-empty, and with the always-failing backend
the reply to `"hello"` is the fixed fallback `"Hello! How can I help you
today?"`. -/
theorem smart_response_nonempty_witness :
    ((∀ kv ∈ initAIState.responseCache, hasNonWs kv.2 = true) ∧
      (∀ kv ∈ initAIState.learn.learnedKnowledge, ∀ it ∈ kv.2,
        hasNonWs it.response = true) ∧
      (smart_response envHello initAIState ( "hi there".toList)).1 ≠ []) ∧
    ((∀ a b, envFail.ollama a b = none) ∧
      dictGet (generate_cache_key ( "hello".toList) []) initAIState.responseCache = none ∧
      (get_ai_response envFail initAIState ( "hello".toList) []).1 =
        get_fallback_response ( "hello".toList) ∧
      get_fallback_response ( "hello".toList) =
        "Hello! How can I help you today?".toList) :=
  ⟨⟨by decide, by decide,
      smart_response_nonempty.1 envHello initAIState ( "hi there".toList)
        (by decide) (by decide)⟩,
    ⟨fun a b => rfl, by decide,
      smart_response_nonempty.2 envFail initAIState ( "hello".toList) []
        (fun a b => rfl) (by decide),
      by decide⟩⟩
